import Mathlib

/-!
Verification development for the MediaViewer server core: the in-memory sync
state store, the HTTP sync/playback endpoints, the Range streaming engine,
the WebSocket hub, the DeoVR heartbeat inferrer, the HereSphere event
endpoint and the VR classification pipeline are shallowly embedded below and
the advertised behavioural properties are proved about the embedding.

Modelling conventions:
* JavaScript numbers are modelled as rationals; Math.round(x) is the half-up
  rounding floor(x + 1/2), which agrees with JS on all rationals, and the
  numeric "x || d" fallback (which replaces a zero/NaN value by d) is jsOr.
* JS Maps are association lists; Map.set/get/delete are alSet/alLookup/alDelete.
* Wall-clock instants (Date.now(), toISOString()) are integer epoch
  milliseconds; ISO-8601 timestamps produced by toISOString() are a fixed
  width format whose lexicographic order agrees with the numeric order, so
  updatedAt values are carried as integers.
-/

/-- JS Math.round on a rational: round half up. -/
def jsRound (q : ℚ) : ℤ := ⌊q + 1/2⌋

/-- Whitespace predicate used to model JS String.prototype.trim (restricted to
the ASCII whitespace that occurs in the strings this server handles). -/
def jsWs (c : Char) : Bool := c.isWhitespace

/-- JS String.prototype.trim, modelled over the character list so that it is
kernel-computable. -/
def jsTrim (s : String) : String :=
  String.mk (((s.data.dropWhile jsWs).reverse.dropWhile jsWs).reverse)

/-- ASCII lowering of one character; JS String.prototype.toLowerCase restricted
to ASCII, which covers the path and header strings this server handles. -/
def asciiLower (c : Char) : Char :=
  if 'A' ≤ c ∧ c ≤ 'Z' then Char.ofNat (c.toNat + 32) else c

/-- JS String.prototype.toLowerCase (ASCII fragment). -/
def jsLower (s : String) : String := String.mk (s.data.map asciiLower)

/-- JS numeric fallback "x || d" for a number x: zero (and NaN, which the
callers exclude upstream) falls back to d, everything else is kept. -/
def jsOr (q d : ℚ) : ℚ := if q = 0 then d else q

/-- Lookup in an association list (JS Map.get). -/
def alLookup {β : Type} (l : List (String × β)) (k : String) : Option β :=
  match l with
  | [] => none
  | (k', v) :: rest => if k' = k then some v else alLookup rest k

/-- Insert-or-replace in an association list (JS Map.set). -/
def alSet {β : Type} (l : List (String × β)) (k : String) (v : β) :
    List (String × β) :=
  (k, v) :: l.filter (fun p => p.1 ≠ k)

/-- Removal from an association list (JS Map.delete). -/
def alDelete {β : Type} (l : List (String × β)) (k : String) :
    List (String × β) :=
  l.filter (fun p => p.1 ≠ k)

/-- Normalization applied by runtimeState.ts to session ids:
String(sessionId ?? "default").trim() || "default". -/
def normalizeSessionId (s : String) : String :=
  let t := jsTrim s
  if t = "" then "default" else t

namespace RuntimeState

/-- SyncPlaybackState from runtimeState.ts; updatedAt carries the epoch
milliseconds rendered by nowIso(). -/
structure SyncPlaybackState where
  sessionId : String
  mediaId : Option String
  timeMs : ℤ
  paused : Bool
  fps : ℤ
  frame : ℤ
  fromClientId : String
  updatedAt : ℤ
  deriving Repr, DecidableEq

/-- Argument record of upsertSyncPlaybackState; numeric fields are raw JS
numbers (the function itself clamps them). -/
structure SyncUpdateInput where
  sessionId : String
  mediaId : Option String
  timeMs : ℚ
  paused : Bool
  fps : ℚ
  frame : ℚ
  fromClientId : String
  deriving Repr, DecidableEq

/-- The per-session map syncStateBySession. -/
def SyncStore := List (String × SyncPlaybackState)

/-- getSyncPlaybackState from runtimeState.ts: returns the stored state, or a
fresh default (never inserted into the map). -/
def getSyncPlaybackState (store : SyncStore) (sessionId : String) :
    SyncPlaybackState :=
  let id := normalizeSessionId sessionId
  match alLookup store id with
  | some st => st
  | none =>
    { sessionId := id
      mediaId := none
      timeMs := 0
      paused := true
      fps := 30
      frame := 0
      fromClientId := ""
      updatedAt := 0 }

/-- upsertSyncPlaybackState from runtimeState.ts: normalizes the session id,
clamps the numeric fields, stamps updatedAt with the current time, stores the
state and returns it together with the updated map. -/
def upsertSyncPlaybackState (store : SyncStore) (input : SyncUpdateInput)
    (now : ℤ) : SyncPlaybackState × SyncStore :=
  let sessionId := normalizeSessionId input.sessionId
  let next : SyncPlaybackState :=
    { sessionId := sessionId
      mediaId := input.mediaId.map (fun m => jsTrim m)
      timeMs := max 0 (jsRound (jsOr input.timeMs 0))
      paused := input.paused
      fps := max 1 (jsRound (jsOr input.fps 30))
      frame := max 0 (jsRound (jsOr input.frame 0))
      fromClientId := input.fromClientId
      updatedAt := now }
  (next, alSet store sessionId next)

end RuntimeState

namespace Api

open RuntimeState

/-- Body of PUT /sync as the handler in api.ts sees it after JSON parsing.
An Option at the outer layer records whether the field was present with the
expected JS type; mediaId distinguishes absent (none), JSON null
(some none) and a string (some (some s)). -/
structure PutSyncBody where
  sessionId : Option String
  clientId : Option String
  mediaId : Option (Option String)
  timeMs : Option ℚ
  paused : Bool
  fps : Option ℚ
  frame : Option ℚ
  deriving Repr

/-- Outcome of the PUT /sync handler: HTTP status, the JSON body (the stored
state on success) and the store after the request. -/
structure PutSyncResult where
  status : ℕ
  body : Option SyncPlaybackState
  store : SyncStore

/-- PUT /sync handler from api.ts: validates clientId and mediaId, coerces the
numeric fields, performs the upsert and echoes the stored state. -/
def putSyncHandler (store : SyncStore) (b : PutSyncBody) (now : ℤ) :
    PutSyncResult :=
  let sessionId := normalizeSessionId (b.sessionId.getD "default")
  let clientId := jsTrim (b.clientId.getD "")
  if clientId = "" then { status := 400, body := none, store := store }
  else
    let mediaId : Option String :=
      match b.mediaId with
      | some none => none
      | some (some s) => some (jsTrim s)
      | none => some ""
    if mediaId = some "" then { status := 400, body := none, store := store }
    else
      let r := upsertSyncPlaybackState store
        { sessionId := sessionId
          mediaId := mediaId
          timeMs := b.timeMs.getD 0
          paused := b.paused
          fps := b.fps.getD 30
          frame := b.frame.getD 0
          fromClientId := clientId } now
      { status := 200, body := some r.1, store := r.2 }

/-- Digit-run to number, as JS Number() does on a digit string. -/
def digitsToNat (l : List Char) : ℕ :=
  l.foldl (fun a c => a * 10 + (c.toNat - 48)) 0

/-- Single-range header parser from the stream route in api.ts: the regex
bytes=(digits)-(digits?) anchored at both ends, with a case-insensitive
"bytes" prefix; returns the start and the optional end. -/
def parseSingleRange (r : String) : Option (ℕ × Option ℕ) :=
  let cs := r.data
  let pre := cs.take 6
  if pre.map asciiLower = "bytes=".data then
    let rest := cs.drop 6
    let d1 := rest.takeWhile (fun c => c ≠ '-')
    match rest.dropWhile (fun c => c ≠ '-') with
    | '-' :: d2 =>
      if d1 ≠ [] ∧ d1.all Char.isDigit ∧ d2.all Char.isDigit then
        some (digitsToNat d1, if d2 = [] then none else some (digitsToNat d2))
      else none
    | _ => none
  else none

/-- Content-Range header value, kept structurally: unsatisfied renders as
"bytes */size" and seg renders as "bytes first-last/size". -/
inductive ContentRange where
  | unsatisfied (size : ℕ)
  | seg (first last size : ℕ)
  deriving Repr, DecidableEq

/-- Observable outcome of the Range portion of GET /media/:id/stream:
status, Content-Range, Content-Length and how many body bytes are streamed. -/
structure StreamResult where
  status : ℕ
  contentRange : Option ContentRange
  contentLength : Option ℕ
  bodyLen : ℕ
  deriving Repr, DecidableEq

/-- Range handling of GET /media/:id/stream from api.ts, for a resolved file
of the given size, outside the transcode branch. A size of zero is rejected
as Not Found before any Range processing (the route treats a non-positive
stat size as missing). A parsed single range is clamped and served with 206,
an unsatisfiable one gets 416 with an empty body, anything else streams the
whole file with 200, and HEAD stops after the headers. -/
def mediaStreamRange (size : ℕ) (rangeHeader : Option String) (isHead : Bool) :
    StreamResult :=
  if size = 0 then
    { status := 404, contentRange := none, contentLength := none, bodyLen := 0 }
  else
    let range := jsTrim (rangeHeader.getD "")
    match parseSingleRange range with
    | some (start, endOpt) =>
      let e : ℕ := match endOpt with
        | some er => min (size - 1) (max start er)
        | none => size - 1
      if start < size ∧ start ≤ e ∧ e < size then
        { status := 206
          contentRange := some (ContentRange.seg start e size)
          contentLength := some (e - start + 1)
          bodyLen := if isHead then 0 else e - start + 1 }
      else
        { status := 416
          contentRange := some (ContentRange.unsatisfied size)
          contentLength := none
          bodyLen := 0 }
    | none =>
      { status := 200, contentRange := none, contentLength := some size
        bodyLen := if isHead then 0 else size }

end Api

namespace Ffprobe

/-- Probe fields that drive the VR decision in probeVrWithFfprobe: presence of
spherical side data (with its bounds) and stereo3d side data, plus the video
stream dimensions as asNum delivers them. -/
structure ProbeData where
  spherical : Bool
  boundLeft : Option ℚ
  boundRight : Option ℚ
  stereo3d : Bool
  width : Option ℚ
  height : Option ℚ
  deriving Repr, DecidableEq

/-- fovFromSphericalBounds from ffprobe.ts: needs both bounds, a positive
span, and calls spans of at most 0.75 a 180 video, wider ones 360. -/
def fovFromSphericalBounds (boundLeft boundRight : Option ℚ) : Option ℕ :=
  match boundLeft, boundRight with
  | some bl, some br =>
    let span := br - bl
    if span ≤ 0 then none
    else if span ≤ 0.75 then some 180 else some 360
  | _, _ => none

/-- fovFromDimensions from ffprobe.ts: the dimension heuristic, ratio about
2:1 with a frame of at least 3000 by 1500 gives 360, ratio about 1:1 with at
least 2500 by 2500 gives 180. -/
def fovFromDimensions (width height : ℚ) : Option ℕ :=
  if width ≤ 0 ∨ height ≤ 0 then none
  else
    let r2 := width / height
    if (1.95 ≤ r2 ∧ r2 ≤ 2.05) ∧ 3000 ≤ width ∧ 1500 ≤ height then some 360
    else if (0.95 ≤ r2 ∧ r2 ≤ 1.05) ∧ 2500 ≤ width ∧ 2500 ≤ height then
      some 180
    else none

/-- Field of view as probeVrWithFfprobe computes it: spherical bounds first,
the dimension heuristic only when that yields nothing. -/
def probeFov (p : ProbeData) : Option ℕ :=
  let fov1 := if p.spherical then fovFromSphericalBounds p.boundLeft p.boundRight
    else none
  match fov1 with
  | some f => some f
  | none =>
    match p.width, p.height with
    | some w, some h => fovFromDimensions w h
    | _, _ => none

/-- The isVr flag of probeVrWithFfprobe: spherical side data, a computed fov,
or stereo3d side data. -/
def probeIsVr (p : ProbeData) : Bool :=
  p.spherical || (probeFov p).isSome || p.stereo3d

end Ffprobe

namespace Scanner

/-- Separator class of the heuristic token regexes in mediaScanner.ts, the
character class of slash, whitespace, dot, underscore and dash. -/
def sepc (c : Char) : Bool :=
  c = '/' ∨ jsWs c ∨ c = '.' ∨ c = '_' ∨ c = '-'

/-- A boundary position for a token: the string edge or a separator. -/
def boundaryOk : Option Char → Bool
  | none => true
  | some c => sepc c

/-- Match tok as a literal prefix of s, returning the remainder. -/
def takeTok : List Char → List Char → Option (List Char)
  | [], s => some s
  | _, [] => none
  | t :: ts, c :: cs => if c = t then takeTok ts cs else none

/-- Scan for tok with separator-or-edge boundaries on both sides, the
word-boundary-ish regexes of mediaScanner.ts. -/
def tokHitFrom (tok : List Char) : Option Char → List Char → Bool
  | prev, s =>
    let here := boundaryOk prev &&
      (match takeTok tok s with
       | some rest => boundaryOk rest.head?
       | none => false)
    match s with
    | [] => here
    | c :: cs => here || tokHitFrom tok (some c) cs

/-- Token test on a whole string. -/
def hasToken (s tok : String) : Bool := tokHitFrom tok.data none s.data

/-- Any of several alternative tokens. -/
def hasAnyToken (s : String) (toks : List String) : Bool :=
  toks.any (fun t => hasToken s t)

/-- Substring membership on character lists (JS String.prototype.includes). -/
def listHasSub (sub : List Char) : List Char → Bool
  | [] => (takeTok sub []).isSome
  | c :: cs => (takeTok sub (c :: cs)).isSome || listHasSub sub cs

/-- JS String.prototype.includes. -/
def jsIncludes (s sub : String) : Bool := listHasSub sub.data s.data

/-- isVrFromRelPath from mediaScanner.ts: lowercases, turns backslashes into
slashes, then applies the folder hint, the LRF+Full+stereo composite, and the
fov/stereo/vr token combinations. -/
def isVrFromRelPath (relPath : String) : Bool :=
  let s := String.mk ((jsLower relPath).data.map
    (fun c => if c = '\\' then '/' else c))
  if jsIncludes s "/vr/" then true
  else
    let hasVrWord := hasToken s "vr"
    let hasStereo := hasAnyToken s
      ["lr", "rl", "sbs", "3dh", "tb", "bt", "ou", "overunder", "3dv"]
    let hasFov := hasAnyToken s ["180", "360"] || jsIncludes s "vr180" ||
      jsIncludes s "vr360"
    let hasLrf := hasToken s "lrf"
    let hasFull := hasToken s "full"
    if hasLrf && hasFull && hasStereo then true
    else if hasFov && (hasStereo || hasVrWord) then true
    else if hasStereo && hasVrWord then true
    else false

/-- The isVr decision for a video row in upsertMediaFromDisk: the probe wins
when it flags VR, otherwise the path heuristic is consulted (also when the
probe failed altogether). -/
def scanIsVr (probe : Option Ffprobe.ProbeData) (relPath : String) : Bool :=
  match probe with
  | some p => if Ffprobe.probeIsVr p then true else isVrFromRelPath relPath
  | none => isVrFromRelPath relPath

/-- Cause predicate: ffprobe side data (spherical or stereo3d) was present. -/
def causeSideData (probe : Option Ffprobe.ProbeData) : Bool :=
  match probe with
  | some p => p.spherical || p.stereo3d
  | none => false

/-- Cause predicate: the dimension heuristic matches the probed frame. -/
def causeDimensions (probe : Option Ffprobe.ProbeData) : Bool :=
  match probe with
  | some p =>
    match p.width, p.height with
    | some w, some h => (Ffprobe.fovFromDimensions w h).isSome
    | _, _ => false
  | none => false

/-- Cause predicate: the path or filename token heuristic matches. -/
def causeToken (relPath : String) : Bool := isVrFromRelPath relPath

/-- Number of true entries among a list of cause flags. -/
def countTrue (l : List Bool) : ℕ :=
  (l.map (fun b => if b then 1 else 0)).sum

/-- Exactly one of the three classification causes holds (the reading of the
claim as stated). -/
def exactlyOneCause (probe : Option Ffprobe.ProbeData) (relPath : String) :
    Prop :=
  countTrue [causeSideData probe, causeDimensions probe, causeToken relPath] = 1

end Scanner

namespace VrIntegrations

open Scanner

/-- Hex digit value for percent decoding. -/
def hexVal (c : Char) : Option ℕ :=
  if '0' ≤ c ∧ c ≤ '9' then some (c.toNat - 48)
  else if 'a' ≤ c ∧ c ≤ 'f' then some (c.toNat - 87)
  else if 'A' ≤ c ∧ c ≤ 'F' then some (c.toNat - 55)
  else none

/-- Percent decoding (JS decodeURIComponent) on a character list, byte-wise:
well-formed hex pairs decode, anything else stays literal. Multi-byte UTF-8
escapes and malformed input (where JS throws) are outside the inputs the
claims exercise. -/
def pctDecodeList : List Char → List Char
  | [] => []
  | '%' :: h1 :: h2 :: rest =>
    match hexVal h1, hexVal h2 with
    | some a, some b => Char.ofNat (a * 16 + b) :: pctDecodeList rest
    | _, _ => '%' :: pctDecodeList (h1 :: h2 :: rest)
  | c :: rest => c :: pctDecodeList rest

/-- JS decodeURIComponent on the fragment of inputs handled here. -/
def decodeURIComponentA (s : String) : String := String.mk (pctDecodeList s.data)

/-- Split a list at the first occurrence of a marker, returning the prefix
before it and the remainder after it. -/
def splitSub (sub : List Char) : List Char → Option (List Char × List Char)
  | [] => if (takeTok sub []).isSome then some ([], []) else none
  | c :: cs =>
    match takeTok sub (c :: cs) with
    | some rest => some ([], rest)
    | none =>
      match splitSub sub cs with
      | some (pre, post) => some (c :: pre, post)
      | none => none

/-- Pathname extraction of the WHATWG URL constructor, restricted to the
hierarchical scheme://host/path shape that HereSphere event ids take: a
non-empty scheme before "://", a non-empty host, and the path cut at the
first query or fragment delimiter. Inputs outside this shape make the URL
branch fail, which in the source sends the id to the raw-string fallback. -/
def urlPathname (raw : String) : Option String :=
  match splitSub "://".data raw.data with
  | none => none
  | some (scheme, rest) =>
    if scheme = [] then none
    else
      let host := rest.takeWhile (fun c => c ≠ '/' ∧ c ≠ '?' ∧ c ≠ '#')
      if host = [] then none
      else
        let after := rest.drop host.length
        let path := after.takeWhile (fun c => c ≠ '?' ∧ c ≠ '#')
        some (String.mk (if path = [] then ['/'] else path))

/-- End-anchored match of /heresphere/video/(segment) on a pathname, the
first regex of parseVideoIdFromHereSphereEventId: the final path segment,
non-empty and slash-free, immediately preceded by the literal marker. -/
def hsAnchoredMatch (pathname : String) : Option String :=
  let revp := pathname.data.reverse
  let segRev := revp.takeWhile (fun c => c ≠ '/')
  if segRev = [] then none
  else
    let rest := revp.drop segRev.length
    if (takeTok ("/heresphere/video/".data.reverse) rest).isSome then
      some (String.mk segRev.reverse)
    else none

/-- Unanchored scan for /heresphere/video/(segment) over the raw id string,
the fallback regex: the first position where the marker is followed by a
non-empty run of characters outside slash, question mark and hash. -/
def hsFallbackScan : List Char → Option String
  | [] => none
  | c :: cs =>
    (match takeTok "/heresphere/video/".data (c :: cs) with
     | some post =>
       let seg := post.takeWhile (fun ch => ch ≠ '/' ∧ ch ≠ '?' ∧ ch ≠ '#')
       if seg = [] then none else some (String.mk seg)
     | none => none).orElse
    (fun _ => hsFallbackScan cs)

/-- parseVideoIdFromHereSphereEventId from vrIntegrations.ts: trim the id,
try the URL pathname with the end-anchored regex, and otherwise fall back to
the unanchored scan of the raw string; the captured segment is
percent-decoded. -/
def parseVideoIdFromHereSphereEventId (idField : Option String) :
    Option String :=
  match idField with
  | none => none
  | some s0 =>
    let raw := jsTrim s0
    if raw = "" then none
    else
      let fb : Option String :=
        match hsFallbackScan raw.data with
        | some seg => some (decodeURIComponentA seg)
        | none => none
      match urlPathname raw with
      | some pathname =>
        match hsAnchoredMatch pathname with
        | some seg => some (decodeURIComponentA seg)
        | none => fb
      | none => fb

/-- JSON body of POST /heresphere/event; numeric fields are none when absent
or not coercible to a finite number. -/
structure HsEventBody where
  id : Option String
  time : Option ℚ
  event : Option ℚ
  connectionKey : Option String
  deriving Repr

/-- Outcome of the event endpoint: the response status and the sync update
handed to onVrSync (which commits it via upsertSyncPlaybackState and
broadcasts), when the id yielded a media id. -/
structure HsEventResult where
  status : ℕ
  publish : Option RuntimeState.SyncUpdateInput
  deriving Repr

/-- POST /heresphere/event handler from vrIntegrations.ts. -/
def heresphereEventHandler (sessionIdQuery : Option String)
    (body : HsEventBody) : HsEventResult :=
  let sessionId := normalizeSessionId (sessionIdQuery.getD "default")
  let mediaId := parseVideoIdFromHereSphereEventId body.id
  let timeMs : ℤ := match body.time with
    | some t => max 0 (jsRound t)
    | none => 0
  let evt : Option ℚ := body.event
  let paused : Bool := evt = some 2 ∨ evt = some 0 ∨ evt = some 3
  let frame : ℤ := max 0 ⌊(timeMs : ℚ) / 1000 * 30⌋
  let connectionKey := jsTrim (body.connectionKey.getD "")
  let fromClientId :=
    if connectionKey ≠ "" then "vr:heresphere:" ++ connectionKey
    else "vr:heresphere"
  { status := 204
    publish := mediaId.map (fun m =>
      { sessionId := sessionId
        mediaId := some m
        timeMs := (timeMs : ℚ)
        paused := paused
        fps := 30
        frame := (frame : ℚ)
        fromClientId := fromClientId }) }

end VrIntegrations

namespace Hub

open RuntimeState

/-- Per-client metadata stored in clientMetadata on sync:hello. -/
structure ClientMeta where
  userAgent : String
  ipAddress : String
  deriving Repr, DecidableEq

/-- Per-client UI status stored in clientUiStatus by client:status. -/
structure UiStatus where
  uiView : Option String
  mediaId : Option (Option String)
  deriving Repr, DecidableEq

/-- One WebSocket connection: its identity, the clientId and sessionId the
hub stamped onto it (the __mv fields), and its readyState (1 is OPEN). -/
structure WsClient where
  sockId : ℕ
  clientId : Option String
  sessionId : Option String
  userAgent : String
  ipAddress : String
  readyState : ℕ
  deriving Repr, DecidableEq

/-- One row of the clients list built by buildClientsList. -/
structure ClientEntry where
  clientId : String
  userAgent : String
  ipAddress : String
  uiView : Option String
  uiMediaId : Option (Option String)
  deriving Repr, DecidableEq

/-- Hub state: the module-level maps of the WebSocket server plus the sync
store it commits to. clientsById carries the socket sets. -/
structure HubState where
  clientMetadata : List (String × ClientMeta)
  clientUiStatus : List (String × UiStatus)
  clientsById : List (String × List WsClient)
  sessionPlayAt : List (String × String)
  sessionPlayAtLocalMs : List (String × ℤ)
  sessionCapturedAtLocalMs : List (String × ℤ)
  syncStore : SyncStore

/-- buildClientsList: one entry per clientMetadata row, joined with the UI
status map. -/
def buildClientsList (h : HubState) : List ClientEntry :=
  h.clientMetadata.map (fun p =>
    let ui := alLookup h.clientUiStatus p.1
    { clientId := p.1
      userAgent := p.2.userAgent
      ipAddress := p.2.ipAddress
      uiView := ui.bind (fun u => u.uiView)
      uiMediaId := ui.bind (fun u => u.mediaId) })

/-- State object of an outbound sync:state broadcast: the stored session
state overlaid with the ephemerals; playAt rides along only on a non-paused
state. -/
structure WireState where
  sessionId : String
  mediaId : Option String
  timeMs : ℤ
  paused : Bool
  fps : ℤ
  frame : ℤ
  fromClientId : String
  updatedAt : ℤ
  playAt : Option String
  playAtLocalMs : Option ℤ
  capturedAtLocalMs : Option ℤ
  deriving Repr, DecidableEq

/-- An outbound sync:state broadcast (sent to every open socket). -/
structure BroadcastMsg where
  state : WireState
  clients : List ClientEntry
  deriving Repr, DecidableEq

/-- broadcastSyncState from the server entry point: reads the stored state,
overlays playAt (only while not paused, and only a non-empty value),
playAtLocalMs and capturedAtLocalMs, and attaches the clients list. -/
def broadcastSyncState (h : HubState) (sessionId : String) : BroadcastMsg :=
  let baseState := getSyncPlaybackState h.syncStore sessionId
  let playAt := alLookup h.sessionPlayAt sessionId
  { state :=
      { sessionId := baseState.sessionId
        mediaId := baseState.mediaId
        timeMs := baseState.timeMs
        paused := baseState.paused
        fps := baseState.fps
        frame := baseState.frame
        fromClientId := baseState.fromClientId
        updatedAt := baseState.updatedAt
        playAt :=
          if baseState.paused = false then
            match playAt with
            | some p => if p ≠ "" then some p else none
            | none => none
          else none
        playAtLocalMs := alLookup h.sessionPlayAtLocalMs sessionId
        capturedAtLocalMs := alLookup h.sessionCapturedAtLocalMs sessionId }
    clients := buildClientsList h }

/-- State object of a targeted sync:state unicast. The numeric fields are the
raw values from the inbound message (the targeted path does not clamp), and
updatedAt is stamped fresh. -/
structure TargetedState where
  sessionId : String
  mediaId : Option String
  timeMs : ℚ
  paused : Bool
  fps : ℚ
  frame : ℚ
  fromClientId : String
  playAt : Option String
  openInUi : Option Bool
  seekToken : Option String
  seekPhase : Option String
  seekWantPlay : Option Bool
  seekTargetClientId : Option String
  updatedAt : ℤ
  playAtLocalMs : Option ℤ
  capturedAtLocalMs : Option ℤ
  deriving Repr, DecidableEq

/-- One delivered unicast: the receiving socket and the message content. -/
structure UnicastSend where
  target : WsClient
  state : TargetedState
  clients : List ClientEntry
  deriving Repr, DecidableEq

/-- sendSyncStateToClient: deliver a sync:state shaped message to every open
socket registered for toClientId; the sessionId is stamped on, and the
ephemeral playAt/playAtLocalMs/capturedAtLocalMs overlays are applied on top
of the payload (playAt only when the payload is not paused and the stored
value is truthy). -/
def sendSyncStateToClient (h : HubState) (sessionId toClientId : String)
    (state : TargetedState) : List UnicastSend :=
  match alLookup h.clientsById toClientId with
  | none => []
  | some targets =>
    if targets = [] then []
    else
      let playAt := alLookup h.sessionPlayAt sessionId
      let stateWithPlayAt : TargetedState :=
        { state with
          sessionId := sessionId
          playAt :=
            if state.paused = false then
              match playAt with
              | some p => if p ≠ "" then some p else state.playAt
              | none => state.playAt
            else state.playAt
          playAtLocalMs :=
            match alLookup h.sessionPlayAtLocalMs sessionId with
            | some v => some v
            | none => state.playAtLocalMs
          capturedAtLocalMs :=
            match alLookup h.sessionCapturedAtLocalMs sessionId with
            | some v => some v
            | none => state.capturedAtLocalMs }
      let clients := buildClientsList h
      (targets.filter (fun w => w.readyState = 1)).map (fun w =>
        { target := w, state := stateWithPlayAt, clients := clients })

/-- Inbound sync:update message. Option layers record JS presence: for
mediaId and playAt, none is absent, some none is null, some (some s) is a
string; numeric fields are none when absent or not of number type. -/
structure SyncUpdateMsg where
  clientId : Option String
  sessionId : Option String
  mediaId : Option (Option String)
  timeMs : Option ℚ
  paused : Bool
  fps : Option ℚ
  frame : Option ℚ
  playAt : Option (Option String)
  playAtLocalMs : Option ℚ
  capturedAtLocalMs : Option ℚ
  toClientId : Option String
  openInUi : Option Bool
  seekToken : Option String
  seekPhase : Option String
  seekWantPlay : Option Bool
  seekTargetClientId : Option String
  deriving Repr

/-- Result of handling one sync:update message: the hub afterwards, the
unicasts delivered (targeted branch) and the broadcast composed (commit
branch). -/
structure SyncUpdateOutcome where
  hub : HubState
  unicasts : List UnicastSend
  broadcast : Option BroadcastMsg

/-- String(msg.clientId ?? ws.__mvClientId ?? "").trim(). -/
def resolvedClientId (ws : WsClient) (msg : SyncUpdateMsg) : String :=
  jsTrim (match msg.clientId with
    | some c => c
    | none => match ws.clientId with | some c => c | none => "")

/-- String(msg.sessionId ?? ws.__mvSessionId ?? "default").trim() with the
default fallback. -/
def resolvedSessionId (ws : WsClient) (msg : SyncUpdateMsg) : String :=
  normalizeSessionId (match msg.sessionId with
    | some s => s
    | none => match ws.sessionId with | some s => s | none => "default")

/-- msg.mediaId === null ? null : String(msg.mediaId ?? "").trim(). -/
def resolvedMediaId (msg : SyncUpdateMsg) : Option String :=
  match msg.mediaId with
  | some none => none
  | some (some s) => some (jsTrim s)
  | none => some ""

/-- Lines 831-835 of the handler: a finite positive capturedAtLocalMs is
rounded and stored for the session. -/
def applyCapturedAtLocalMs (h : HubState) (sessionId : String)
    (v : Option ℚ) : HubState :=
  match v with
  | some c =>
    if 0 < c then
      { h with sessionCapturedAtLocalMs :=
          alSet h.sessionCapturedAtLocalMs sessionId (jsRound c) }
    else h
  | none => h

/-- Lines 837-854 of the handler: a null playAt deletes both ephemerals; a
non-empty string is Date.parsed and, when valid, stored re-rendered; the
accompanying playAtLocalMs is stored when positive, deleted otherwise. -/
def applyPlayAtParsing (h : HubState) (sessionId : String)
    (playAtField : Option (Option String)) (playAtLocalMs : Option ℚ)
    (dateParse : String → Option ℤ) (isoRender : ℤ → String) : HubState :=
  match playAtField with
  | some none =>
    { h with
      sessionPlayAt := alDelete h.sessionPlayAt sessionId
      sessionPlayAtLocalMs := alDelete h.sessionPlayAtLocalMs sessionId }
  | some (some s) =>
    let pa := jsTrim s
    if pa = "" then h
    else
      let hA := match dateParse pa with
        | some t =>
          { h with
            sessionPlayAt := alSet h.sessionPlayAt sessionId (isoRender t) }
        | none => h
      match playAtLocalMs with
      | some nq =>
        if 0 < nq then
          let v := alSet hA.sessionPlayAtLocalMs sessionId (jsRound nq)
          { hA with sessionPlayAtLocalMs := v }
        else
          let v := alDelete hA.sessionPlayAtLocalMs sessionId
          { hA with sessionPlayAtLocalMs := v }
      | none =>
        let v := alDelete hA.sessionPlayAtLocalMs sessionId
        { hA with sessionPlayAtLocalMs := v }
  | none => h

/-- The sync:update branch of the WebSocket message handler. dateParse and
isoRender model Date.parse and toISOString of the JS runtime; now is the
wall clock. Invalid messages (no clientId, empty-string mediaId) are dropped
silently. -/
def syncUpdateHandler (h : HubState) (ws : WsClient) (msg : SyncUpdateMsg)
    (dateParse : String → Option ℤ) (isoRender : ℤ → String) (now : ℤ) :
    SyncUpdateOutcome :=
  let clientId := resolvedClientId ws msg
  let sessionId := resolvedSessionId ws msg
  let mediaId : Option String := resolvedMediaId msg
  if clientId = "" ∨ mediaId = some "" then
    { hub := h, unicasts := [], broadcast := none }
  else
    let h1 := applyCapturedAtLocalMs h sessionId msg.capturedAtLocalMs
    let h2 := applyPlayAtParsing h1 sessionId msg.playAt msg.playAtLocalMs
      dateParse isoRender
    let toClientId := jsTrim (msg.toClientId.getD "")
    let timeMs : ℚ := msg.timeMs.getD 0
    let paused := msg.paused
    let fps : ℚ := msg.fps.getD 30
    let frame : ℚ := msg.frame.getD 0
    let ptOpenInUi : Option Bool :=
      if msg.openInUi = some true then some true else none
    let ptSeekToken : Option String := match msg.seekToken with
      | some s => if jsTrim s ≠ "" then some (jsTrim s) else none
      | none => none
    let ptSeekPhase : Option String := match msg.seekPhase with
      | some s => if jsTrim s ≠ "" then some (jsTrim s) else none
      | none => none
    let ptSeekWantPlay : Option Bool := msg.seekWantPlay
    let ptSeekTarget : Option String := match msg.seekTargetClientId with
      | some s => if jsTrim s ≠ "" then some (jsTrim s) else none
      | none => none
    let clearPlayAt := fun (hh : HubState) =>
      { hh with
        sessionPlayAt :=
          if paused = true ∨ (paused = false ∧ msg.playAt = none) then
            alDelete hh.sessionPlayAt sessionId
          else hh.sessionPlayAt
        sessionPlayAtLocalMs :=
          if paused = true ∨ (paused = false ∧ msg.playAt = none) then
            alDelete hh.sessionPlayAtLocalMs sessionId
          else hh.sessionPlayAtLocalMs }
    if toClientId ≠ "" then
      let h3 := clearPlayAt h2
      let scheduled : Option String :=
        if paused = false then alLookup h3.sessionPlayAt sessionId else none
      let payload : TargetedState :=
        { sessionId := ""
          mediaId := mediaId
          timeMs := timeMs
          paused := paused
          fps := fps
          frame := frame
          fromClientId := clientId
          playAt := match scheduled with
            | some p => if p ≠ "" then some p else none
            | none => none
          openInUi := ptOpenInUi
          seekToken := ptSeekToken
          seekPhase := ptSeekPhase
          seekWantPlay := ptSeekWantPlay
          seekTargetClientId := ptSeekTarget
          updatedAt := now
          playAtLocalMs := none
          capturedAtLocalMs := none }
      { hub := h3
        unicasts := sendSyncStateToClient h3 sessionId toClientId payload
        broadcast := none }
    else
      let h3 := clearPlayAt h2
      let r := upsertSyncPlaybackState h3.syncStore
        { sessionId := sessionId
          mediaId := mediaId
          timeMs := timeMs
          paused := paused
          fps := fps
          frame := frame
          fromClientId := clientId } now
      let h4 := { h3 with syncStore := r.2 }
      { hub := h4
        unicasts := []
        broadcast := some (broadcastSyncState h4 sessionId) }

/-- Result of the socket close handler. -/
structure CloseOutcome where
  hub : HubState
  broadcast : Option BroadcastMsg

/-- The ws close handler from the server entry point: for a socket that had
completed sync:hello, it deletes the client metadata and UI status, detaches
the socket from its set (dropping the set when it empties) and broadcasts to
the socket's session. -/
def wsCloseHandler (h : HubState) (ws : WsClient) : CloseOutcome :=
  match ws.clientId with
  | none => { hub := h, broadcast := none }
  | some cid =>
    let cbi := match alLookup h.clientsById cid with
      | some set =>
        let set' := set.filter (fun w => w ≠ ws)
        if set' = [] then alDelete h.clientsById cid
        else alSet h.clientsById cid set'
      | none => h.clientsById
    let h' := { h with
      clientMetadata := alDelete h.clientMetadata cid
      clientUiStatus := alDelete h.clientUiStatus cid
      clientsById := cbi }
    match ws.sessionId with
    | some sid => { hub := h', broadcast := some (broadcastSyncState h' sid) }
    | none => { hub := h', broadcast := none }

end Hub

namespace Deovr

/-- One DeovrPlaybackState object from api.ts. oid identifies the JS object:
a media switch creates a fresh object while the superseded object (and the
timer closures that captured it) lives on until the forget sweep. -/
structure DeovrObj where
  oid : ℕ
  mediaId : String
  startedAtMs : ℤ
  lastPublishAtMs : ℤ
  lastTimeMs : ℤ
  paused : Bool
  inFlight : ℕ
  lastDataAtMs : ℤ
  pauseTimerArmed : Bool
  deriving Repr, DecidableEq

/-- Model of one (sessionId, deovr client) key: the current object is the
head of objs (the map entry), older objects are still reachable through
their timers; mapMedia is the lastVrStreamMediaByClient entry. -/
structure DeovrModel where
  objs : List DeovrObj
  mapMedia : Option String
  nextOid : ℕ
  deriving Repr, DecidableEq

/-- One call of opts.onVrStream: when it happened, for which media, with
which paused flag, and from which state object's closure. -/
structure Publish where
  atMs : ℤ
  mediaId : String
  paused : Bool
  oid : ℕ
  deriving Repr, DecidableEq

/-- Events of the heartbeat inferrer. streamReq is a stream request hitting
the DeoVR branch; the timer and response events carry the oid of the state
object their closure captured, because superseded objects keep firing. -/
inductive DeovrEvent where
  | streamReq (now : ℤ) (id : String)
  | tickFire (oid : ℕ) (now : ℤ)
  | idleFire (oid : ℕ) (now : ℤ)
  | dataChunk (oid : ℕ) (now : ℤ)
  | closeFire (oid : ℕ) (now : ℤ)
  | pauseFire (oid : ℕ) (now : ℤ)
  deriving Repr, DecidableEq

/-- DEOVR_PUBLISH_MIN_MS. -/
def DEOVR_PUBLISH_MIN_MS : ℤ := 750

/-- DEOVR_IDLE_PAUSE_MS. -/
def DEOVR_IDLE_PAUSE_MS : ℤ := 650

/-- Update every object carrying the given oid. -/
def updObj (objs : List DeovrObj) (oid : ℕ) (f : DeovrObj → DeovrObj) :
    List DeovrObj :=
  objs.map (fun o => if o.oid = oid then f o else o)

/-- The stream-request path of GET /media/:id/stream for a DeoVR client:
create or switch the state object, cancel the pending pause, count the
request in flight, resume if paused, advance lastTimeMs, and publish a
playing update when the rate limit allows it or the media changed. -/
def streamReqStep (m : DeovrModel) (now : ℤ) (id : String) :
    DeovrModel × Option Publish :=
  let fresh : DeovrObj :=
    { oid := m.nextOid
      mediaId := id
      startedAtMs := now
      lastPublishAtMs := 0
      lastTimeMs := 0
      paused := false
      inFlight := 0
      lastDataAtMs := now
      pauseTimerArmed := false }
  let m1 : DeovrModel :=
    match m.objs with
    | [] => { m with objs := [fresh], nextOid := m.nextOid + 1 }
    | cur :: rest =>
      if cur.mediaId ≠ id then
        { m with objs := fresh :: cur :: rest, nextOid := m.nextOid + 1 }
      else m
  match m1.objs with
  | [] => (m1, none)
  | cur :: rest =>
    let cur1 := { cur with pauseTimerArmed := false }
    let cur2 := { cur1 with inFlight := cur1.inFlight + 1 }
    let cur3 :=
      if cur2.paused then
        { cur2 with paused := false, startedAtMs := now - cur2.lastTimeMs }
      else cur2
    let cur4 := { cur3 with lastTimeMs := max 0 (now - cur3.startedAtMs) }
    let shouldPublish :=
      DEOVR_PUBLISH_MIN_MS ≤ now - cur4.lastPublishAtMs ∨ m1.mapMedia ≠ some id
    if shouldPublish then
      let cur5 := { cur4 with lastPublishAtMs := now }
      ({ m1 with objs := cur5 :: rest, mapMedia := some id },
        some { atMs := now, mediaId := id, paused := false, oid := cur5.oid })
    else ({ m1 with objs := cur4 :: rest }, none)

/-- The tickTimer callback: while its object is playing with a request in
flight, refresh lastTimeMs and publish unless inside the rate-limit window. -/
def tickStep (m : DeovrModel) (oid : ℕ) (now : ℤ) :
    DeovrModel × Option Publish :=
  match m.objs.find? (fun o => o.oid = oid) with
  | none => (m, none)
  | some o =>
    if o.paused then (m, none)
    else if o.inFlight = 0 then (m, none)
    else
      if now - o.lastPublishAtMs < DEOVR_PUBLISH_MIN_MS then
        ({ m with objs := updObj m.objs oid (fun ob =>
            { ob with lastTimeMs := max 0 (now - ob.startedAtMs) }) }, none)
      else
        ({ m with objs := updObj m.objs oid (fun ob =>
            { ob with
              lastTimeMs := max 0 (now - ob.startedAtMs)
              lastPublishAtMs := now }) },
          some { atMs := now, mediaId := o.mediaId, paused := false, oid := oid })

/-- The idleTimer callback: while playing with a request in flight and no
bytes for DEOVR_IDLE_PAUSE_MS, force a paused publish at the frozen time. -/
def idleStep (m : DeovrModel) (oid : ℕ) (now : ℤ) :
    DeovrModel × Option Publish :=
  match m.objs.find? (fun o => o.oid = oid) with
  | none => (m, none)
  | some o =>
    if o.paused then (m, none)
    else if o.inFlight = 0 then (m, none)
    else if o.lastDataAtMs = 0 then (m, none)
    else if now - o.lastDataAtMs < DEOVR_IDLE_PAUSE_MS then (m, none)
    else
      ({ m with objs := updObj m.objs oid (fun ob => { ob with paused := true }) },
        some { atMs := now, mediaId := o.mediaId, paused := true, oid := oid })

/-- The on-data callback of the response stream: refresh lastDataAtMs and
resume from an inferred pause. -/
def dataStep (m : DeovrModel) (oid : ℕ) (now : ℤ) : DeovrModel :=
  { m with objs := updObj m.objs oid (fun ob =>
      if ob.paused then
        { ob with
          lastDataAtMs := now
          paused := false
          startedAtMs := now - ob.lastTimeMs }
      else { ob with lastDataAtMs := now }) }

/-- The response close/finish callback: release the in-flight count and arm
the pause debounce when it reaches zero. -/
def closeStep (m : DeovrModel) (oid : ℕ) : DeovrModel :=
  { m with objs := updObj m.objs oid (fun ob =>
      let inFlight' := ob.inFlight - 1
      if inFlight' = 0 then { ob with inFlight := inFlight', pauseTimerArmed := true }
      else { ob with inFlight := inFlight' }) }

/-- The pause-debounce callback: if still armed with nothing in flight and
not already paused, freeze the time and publish paused. -/
def pauseStep (m : DeovrModel) (oid : ℕ) (now : ℤ) :
    DeovrModel × Option Publish :=
  match m.objs.find? (fun o => o.oid = oid) with
  | none => (m, none)
  | some o =>
    if ¬ o.pauseTimerArmed then (m, none)
    else
      let m' := { m with objs := updObj m.objs oid (fun ob =>
        { ob with pauseTimerArmed := false }) }
      if o.inFlight ≠ 0 then (m', none)
      else if o.paused then (m', none)
      else
        ({ m' with objs := updObj m'.objs oid (fun ob => { ob with paused := true }) },
          some { atMs := now, mediaId := o.mediaId, paused := true, oid := oid })

/-- One event. -/
def stepDeovr (m : DeovrModel) : DeovrEvent → DeovrModel × Option Publish
  | DeovrEvent.streamReq now id => streamReqStep m now id
  | DeovrEvent.tickFire oid now => tickStep m oid now
  | DeovrEvent.idleFire oid now => idleStep m oid now
  | DeovrEvent.dataChunk oid now => (dataStep m oid now, none)
  | DeovrEvent.closeFire oid _ => (closeStep m oid, none)
  | DeovrEvent.pauseFire oid now => pauseStep m oid now

/-- Run a trace, collecting publishes in order. -/
def runDeovr (m : DeovrModel) : List DeovrEvent → DeovrModel × List Publish
  | [] => (m, [])
  | e :: es =>
    let r := stepDeovr m e
    let rest := runDeovr r.1 es
    (rest.1, match r.2 with
      | some pub => pub :: rest.2
      | none => rest.2)

/-- Initial model: no state object yet, no lastVrStreamMediaByClient entry. -/
def initDeovr : DeovrModel := { objs := [], mapMedia := none, nextOid := 0 }

/-- The publishes that carry paused = false. -/
def playingPubs (l : List Publish) : List Publish :=
  l.filter (fun p => p.paused = false)

/-- Adjacent relation of the claim as stated: at least the publish interval
apart, or a different media. -/
def claimRelB (a b : Publish) : Bool :=
  decide (DEOVR_PUBLISH_MIN_MS ≤ b.atMs - a.atMs) || decide (a.mediaId ≠ b.mediaId)

/-- Adjacent relation that actually holds: the claim relation, or the two
publishes come from different state objects. -/
def amendedRelB (a b : Publish) : Bool :=
  decide (DEOVR_PUBLISH_MIN_MS ≤ b.atMs - a.atMs) ||
    decide (a.mediaId ≠ b.mediaId) || decide (a.oid ≠ b.oid)

/-- Every adjacent pair of the list satisfies the relation. -/
def chainOkB (R : Publish → Publish → Bool) : List Publish → Bool
  | [] => true
  | [_] => true
  | a :: b :: rest => R a b && chainOkB R (b :: rest)

/-- Chain check with an optional already-emitted predecessor. -/
def chainFrom (R : Publish → Publish → Bool) (last : Option Publish)
    (l : List Publish) : Bool :=
  match last with
  | none => chainOkB R l
  | some pl => chainOkB R (pl :: l)

/-- All live objects carry an oid below the allocation counter. -/
def oidsBounded (m : DeovrModel) : Prop := ∀ o ∈ m.objs, o.oid < m.nextOid

/-- Object identities are distinct. -/
def oidsNodup (m : DeovrModel) : Prop :=
  (m.objs.map (fun o => o.oid)).Nodup

/-- The lastVrStreamMediaByClient entry always names the current (head)
object's media, and is empty before the first object exists. -/
def mapHead (m : DeovrModel) : Prop :=
  match m.objs with
  | [] => m.mapMedia = none
  | cur :: _ => m.mapMedia = some cur.mediaId

/-- Relation between the model and the most recent playing publish: its oid
is an allocated one, and the object(s) carrying that oid recorded exactly
that publish instant in lastPublishAtMs. -/
def lastOk (m : DeovrModel) : Option Publish → Prop
  | none => True
  | some pl => pl.oid < m.nextOid ∧
      ∀ o ∈ m.objs, o.oid = pl.oid → o.lastPublishAtMs = pl.atMs

/-- Trace invariant of the heartbeat model. -/
def InvD (m : DeovrModel) (last : Option Publish) : Prop :=
  oidsBounded m ∧ oidsNodup m ∧ mapHead m ∧ lastOk m last

end Deovr

/-!
Theorems. General lemmas about the association-list operations and the JS
number helpers come first, then one theorem (with counterexample and witness
where applicable) per claim.
-/

theorem alLookup_filter_ne {β : Type} (l : List (String × β)) (k k' : String)
    (h : k ≠ k') :
    alLookup (l.filter (fun p => p.1 ≠ k)) k' = alLookup l k' := by
  induction l with
  | nil => rfl
  | cons p rest ih =>
    obtain ⟨pk, pv⟩ := p
    simp only [ne_eq, decide_not] at ih ⊢
    by_cases hp : pk = k
    · have hk' : pk ≠ k' := fun hh => h (hp ▸ hh)
      rw [List.filter_cons, if_neg (by simp [hp]), ih]
      simp [alLookup, hk']
    · rw [List.filter_cons, if_pos (by simp [hp])]
      by_cases hk' : pk = k'
      · simp [alLookup, hk']
      · simp [alLookup, hk', ih]

theorem alLookup_filter_self {β : Type} (l : List (String × β)) (k : String) :
    alLookup (l.filter (fun p => p.1 ≠ k)) k = none := by
  induction l with
  | nil => rfl
  | cons p rest ih =>
    obtain ⟨pk, pv⟩ := p
    simp only [ne_eq, decide_not] at ih ⊢
    by_cases hp : pk = k
    · rw [List.filter_cons, if_neg (by simp [hp])]
      exact ih
    · rw [List.filter_cons, if_pos (by simp [hp])]
      simpa [alLookup, hp] using ih

theorem alLookup_alSet {β : Type} (l : List (String × β)) (k k' : String)
    (v : β) :
    alLookup (alSet l k v) k' = if k = k' then some v else alLookup l k' := by
  by_cases h : k = k'
  · simp [alSet, alLookup, h]
  · have h' : k' ≠ k := fun hh => h hh.symm
    simp only [alSet, alLookup, if_neg h', if_neg h]
    simpa only [ne_eq, decide_not] using alLookup_filter_ne l k k' h

theorem alLookup_alDelete {β : Type} (l : List (String × β)) (k k' : String) :
    alLookup (alDelete l k) k' = if k = k' then none else alLookup l k' := by
  by_cases h : k = k'
  · subst h
    simpa only [alDelete, if_pos rfl, ne_eq, decide_not] using
      alLookup_filter_self l k
  · simp only [alDelete, if_neg h]
    simpa only [ne_eq, decide_not] using alLookup_filter_ne l k k' h

theorem alDelete_keys {β : Type} (l : List (String × β)) (k : String) :
    ∀ p ∈ alDelete l k, p.1 ≠ k := by
  intro p hp
  have := List.of_mem_filter hp
  simpa using this

theorem jsOr_zero (q : ℚ) : jsOr q 0 = q := by
  unfold jsOr
  split <;> simp_all

theorem jsRound_intCast (n : ℤ) : jsRound (n : ℚ) = n := by
  unfold jsRound
  rw [Int.floor_eq_iff]
  constructor <;> norm_num

/-- C1, counterexample. The claim states the stored fps is
max(1, round(u.fps)) for every accepted update; an update with fps = 0 is
accepted but the numeric fallback turns it into the default 30 before the
clamp, so the stored fps is 30 while the claimed formula gives 1. -/
theorem upsertSync_fpsZero_breaks_claim :
    (RuntimeState.upsertSyncPlaybackState []
      { sessionId := "s1", mediaId := none, timeMs := 0, paused := true,
        fps := 0, frame := 0, fromClientId := "c1" } 5).1.fps ≠
      max 1 (jsRound 0) := by
  have h1 : jsRound 30 = 30 := by simpa using jsRound_intCast 30
  have h0 : jsRound 0 = 0 := by simpa using jsRound_intCast 0
  norm_num [RuntimeState.upsertSyncPlaybackState, jsOr, h1, h0]

/-- C1 (amended): upsertSyncPlaybackState stores and returns
timeMs = max(0, round(u.timeMs)), frame = max(0, round(u.frame)),
fromClientId = u.fromClientId, and fps = max(1, round(u.fps)) except that a
zero fps falls back to the default 30 before the clamp; a subsequent
getSyncPlaybackState on the same session id returns exactly the stored
state, and updatedAt is monotonic across consecutive upserts of a session
whenever the clock is. -/
theorem upsertSync_clamped_and_monotone (store : RuntimeState.SyncStore)
    (u u' : RuntimeState.SyncUpdateInput) (n n' : ℤ) (hmono : n ≤ n') :
    (RuntimeState.upsertSyncPlaybackState store u n).1.timeMs =
      max 0 (jsRound u.timeMs) ∧
    (RuntimeState.upsertSyncPlaybackState store u n).1.fps =
      max 1 (jsRound (if u.fps = 0 then 30 else u.fps)) ∧
    (RuntimeState.upsertSyncPlaybackState store u n).1.frame =
      max 0 (jsRound u.frame) ∧
    (RuntimeState.upsertSyncPlaybackState store u n).1.fromClientId =
      u.fromClientId ∧
    RuntimeState.getSyncPlaybackState
      (RuntimeState.upsertSyncPlaybackState store u n).2 u.sessionId =
      (RuntimeState.upsertSyncPlaybackState store u n).1 ∧
    (RuntimeState.upsertSyncPlaybackState store u n).1.updatedAt ≤
      (RuntimeState.upsertSyncPlaybackState
        (RuntimeState.upsertSyncPlaybackState store u n).2 u' n').1.updatedAt := by
  refine ⟨?_, ?_, ?_, ?_, ?_, ?_⟩
  · simp [RuntimeState.upsertSyncPlaybackState, jsOr_zero]
  · simp [RuntimeState.upsertSyncPlaybackState, jsOr]
  · simp [RuntimeState.upsertSyncPlaybackState, jsOr_zero]
  · simp [RuntimeState.upsertSyncPlaybackState]
  · simp [RuntimeState.getSyncPlaybackState, RuntimeState.upsertSyncPlaybackState,
      alLookup_alSet]
  · simpa [RuntimeState.upsertSyncPlaybackState] using hmono

/-- C1, witness for the amended theorem at a concrete input. -/
theorem upsertSync_clamped_and_monotone_witness :
    (1 : ℤ) ≤ 2 ∧
    ((RuntimeState.upsertSyncPlaybackState []
      { sessionId := " s1 ", mediaId := some " m ", timeMs := 7, paused := false,
        fps := 24, frame := 3, fromClientId := "A" } 1).1.timeMs =
      max 0 (jsRound 7) ∧
    (RuntimeState.upsertSyncPlaybackState []
      { sessionId := " s1 ", mediaId := some " m ", timeMs := 7, paused := false,
        fps := 24, frame := 3, fromClientId := "A" } 1).1.fps =
      max 1 (jsRound (if (24 : ℚ) = 0 then 30 else 24)) ∧
    (RuntimeState.upsertSyncPlaybackState []
      { sessionId := " s1 ", mediaId := some " m ", timeMs := 7, paused := false,
        fps := 24, frame := 3, fromClientId := "A" } 1).1.frame =
      max 0 (jsRound 3) ∧
    (RuntimeState.upsertSyncPlaybackState []
      { sessionId := " s1 ", mediaId := some " m ", timeMs := 7, paused := false,
        fps := 24, frame := 3, fromClientId := "A" } 1).1.fromClientId = "A" ∧
    RuntimeState.getSyncPlaybackState
      (RuntimeState.upsertSyncPlaybackState []
      { sessionId := " s1 ", mediaId := some " m ", timeMs := 7, paused := false,
        fps := 24, frame := 3, fromClientId := "A" } 1).2 " s1 " =
      (RuntimeState.upsertSyncPlaybackState []
      { sessionId := " s1 ", mediaId := some " m ", timeMs := 7, paused := false,
        fps := 24, frame := 3, fromClientId := "A" } 1).1 ∧
    (RuntimeState.upsertSyncPlaybackState []
      { sessionId := " s1 ", mediaId := some " m ", timeMs := 7, paused := false,
        fps := 24, frame := 3, fromClientId := "A" } 1).1.updatedAt ≤
      (RuntimeState.upsertSyncPlaybackState
        (RuntimeState.upsertSyncPlaybackState []
      { sessionId := " s1 ", mediaId := some " m ", timeMs := 7, paused := false,
        fps := 24, frame := 3, fromClientId := "A" } 1).2
        { sessionId := "s1", mediaId := none, timeMs := 0, paused := true,
          fps := 30, frame := 0, fromClientId := "B" } 2).1.updatedAt) :=
  ⟨by decide,
    upsertSync_clamped_and_monotone []
      { sessionId := " s1 ", mediaId := some " m ", timeMs := 7, paused := false,
        fps := 24, frame := 3, fromClientId := "A" }
      { sessionId := "s1", mediaId := none, timeMs := 0, paused := true,
        fps := 30, frame := 0, fromClientId := "B" } 1 2 (by decide)⟩

/-- C9: PUT /sync rejects a missing or blank clientId, and a mediaId that is
the empty string (or absent, which the handler coerces to the empty string),
with HTTP 400 and no change to the store; with a non-empty clientId and a
mediaId that is null or trims non-empty, it performs the upsert, stores the
result and echoes the stored state. -/
theorem putSync_validation_and_upsert (store : RuntimeState.SyncStore)
    (b : Api.PutSyncBody) (now : ℤ) :
    ((jsTrim (b.clientId.getD "") = "" ∨
        (∃ s, b.mediaId = some (some s) ∧ jsTrim s = "") ∨ b.mediaId = none) →
      (Api.putSyncHandler store b now).status = 400 ∧
      (Api.putSyncHandler store b now).store = store) ∧
    (jsTrim (b.clientId.getD "") ≠ "" →
      ∀ mid, b.mediaId = some mid → (∀ s, mid = some s → jsTrim s ≠ "") →
      (Api.putSyncHandler store b now).status = 200 ∧
      (Api.putSyncHandler store b now).body =
        some (RuntimeState.upsertSyncPlaybackState store
          { sessionId := normalizeSessionId (b.sessionId.getD "default")
            mediaId := mid.map (fun s => jsTrim s)
            timeMs := b.timeMs.getD 0
            paused := b.paused
            fps := b.fps.getD 30
            frame := b.frame.getD 0
            fromClientId := jsTrim (b.clientId.getD "") } now).1 ∧
      (Api.putSyncHandler store b now).store =
        (RuntimeState.upsertSyncPlaybackState store
          { sessionId := normalizeSessionId (b.sessionId.getD "default")
            mediaId := mid.map (fun s => jsTrim s)
            timeMs := b.timeMs.getD 0
            paused := b.paused
            fps := b.fps.getD 30
            frame := b.frame.getD 0
            fromClientId := jsTrim (b.clientId.getD "") } now).2) := by
  constructor
  · intro hbad
    rcases hbad with hc | ⟨s, hm, hs⟩ | hm
    · simp [Api.putSyncHandler, hc]
    · by_cases hc : jsTrim (b.clientId.getD "") = ""
      · simp [Api.putSyncHandler, hc]
      · simp [Api.putSyncHandler, hc, hm, hs]
    · by_cases hc : jsTrim (b.clientId.getD "") = ""
      · simp [Api.putSyncHandler, hc]
      · simp [Api.putSyncHandler, hc, hm]
  · intro hc mid hm hmid
    cases mid with
    | none => simp [Api.putSyncHandler, hc, hm]
    | some s =>
      have hs : jsTrim s ≠ "" := hmid s rfl
      simp [Api.putSyncHandler, hc, hm, hs]

/-- C9, witness: a request without clientId gets 400 and leaves the store
alone; a request with clientId "A" and mediaId "m" succeeds. -/
theorem putSync_validation_and_upsert_witness :
    ((Api.putSyncHandler []
        { sessionId := none, clientId := none, mediaId := some (some "m"),
          timeMs := none, paused := false, fps := none, frame := none } 3).status
        = 400 ∧
      (Api.putSyncHandler []
        { sessionId := none, clientId := none, mediaId := some (some "m"),
          timeMs := none, paused := false, fps := none, frame := none } 3).store
        = []) ∧
    ((Api.putSyncHandler []
        { sessionId := none, clientId := some "A", mediaId := some (some "m"),
          timeMs := some 5, paused := false, fps := some 30, frame := none }
        3).status = 200 ∧
      (Api.putSyncHandler []
        { sessionId := none, clientId := some "A", mediaId := some (some "m"),
          timeMs := some 5, paused := false, fps := some 30, frame := none }
        3).body =
        some (RuntimeState.upsertSyncPlaybackState []
          { sessionId := normalizeSessionId ((none : Option String).getD "default")
            mediaId := (some "m").map (fun s => jsTrim s)
            timeMs := (some (5 : ℚ)).getD 0
            paused := false
            fps := (some (30 : ℚ)).getD 30
            frame := (none : Option ℚ).getD 0
            fromClientId := jsTrim ((some "A").getD "") } 3).1 ∧
      (Api.putSyncHandler []
        { sessionId := none, clientId := some "A", mediaId := some (some "m"),
          timeMs := some 5, paused := false, fps := some 30, frame := none }
        3).store =
        (RuntimeState.upsertSyncPlaybackState []
          { sessionId := normalizeSessionId ((none : Option String).getD "default")
            mediaId := (some "m").map (fun s => jsTrim s)
            timeMs := (some (5 : ℚ)).getD 0
            paused := false
            fps := (some (30 : ℚ)).getD 30
            frame := (none : Option ℚ).getD 0
            fromClientId := jsTrim ((some "A").getD "") } 3).2) :=
  ⟨(putSync_validation_and_upsert []
      { sessionId := none, clientId := none, mediaId := some (some "m"),
        timeMs := none, paused := false, fps := none, frame := none } 3).1
      (Or.inl (by decide)),
    (putSync_validation_and_upsert []
      { sessionId := none, clientId := some "A", mediaId := some (some "m"),
        timeMs := some 5, paused := false, fps := some 30, frame := none } 3).2
      (by decide) (some "m") rfl
      (by intro s hs; cases hs; decide)⟩

/-- C10: getSyncPlaybackState is read-only (in this embedding it is a pure
function of the store that returns a state and never an updated store,
mirroring that the source returns the stored object or a fresh literal
without touching the map); for an unknown session it returns the default
state (mediaId null, timeMs 0, paused, fps 30, frame 0, empty fromClientId,
epoch updatedAt), and session ids are normalized identically in reads and
writes, so whitespace-variant ids address the same session. -/
theorem getSync_pure_default_and_normalized (store : RuntimeState.SyncStore)
    (s s' : String) (u : RuntimeState.SyncUpdateInput) (now : ℤ)
    (hmiss : alLookup store (normalizeSessionId s) = none)
    (hvar : normalizeSessionId s' = normalizeSessionId u.sessionId) :
    RuntimeState.getSyncPlaybackState store s =
      { sessionId := normalizeSessionId s, mediaId := none, timeMs := 0,
        paused := true, fps := 30, frame := 0, fromClientId := "",
        updatedAt := 0 } ∧
    RuntimeState.getSyncPlaybackState
      (RuntimeState.upsertSyncPlaybackState store u now).2 s' =
      (RuntimeState.upsertSyncPlaybackState store u now).1 := by
  constructor
  · simp [RuntimeState.getSyncPlaybackState, hmiss]
  · simp [RuntimeState.getSyncPlaybackState, RuntimeState.upsertSyncPlaybackState,
      alLookup_alSet, hvar]

/-- C10, witness: s = "missing" on the empty store, and the whitespace
variant " abc " of the session id "abc". -/
theorem getSync_pure_default_and_normalized_witness :
    RuntimeState.getSyncPlaybackState [] "missing" =
      { sessionId := normalizeSessionId "missing", mediaId := none, timeMs := 0,
        paused := true, fps := 30, frame := 0, fromClientId := "",
        updatedAt := 0 } ∧
    RuntimeState.getSyncPlaybackState
      (RuntimeState.upsertSyncPlaybackState []
        { sessionId := "abc", mediaId := none, timeMs := 0, paused := true,
          fps := 30, frame := 0, fromClientId := "A" } 9).2 " abc " =
      (RuntimeState.upsertSyncPlaybackState []
        { sessionId := "abc", mediaId := none, timeMs := 0, paused := true,
          fps := 30, frame := 0, fromClientId := "A" } 9).1 :=
  getSync_pure_default_and_normalized [] "missing" " abc "
    { sessionId := "abc", mediaId := none, timeMs := 0, paused := true,
      fps := 30, frame := 0, fromClientId := "A" } 9 (by decide) (by decide)

/-- C5, counterexample. The claim covers every existing file of size n, but
an existing empty file (n = 0) is answered 404 before any Range processing,
not 200 with Content-Length 0. -/
theorem streamRange_empty_file_not_200 :
    (Api.mediaStreamRange 0 none false).status ≠ 200 := by decide

/-- C5 (amended, for files of size n with n at least 1): only single ranges
of the form bytes=start-end? are accepted; a parsed range is clamped, an
out-of-range start yields 416 with Content-Range bytes */n and an empty
body, a valid range yields 206 with Content-Range bytes start-e/n and
Content-Length e-start+1 (body only on GET), anything else streams the whole
file with 200 and Content-Length n (headers only on HEAD). -/
theorem streamRange_behavior (n : ℕ) (hn : 1 ≤ n) (r : String) (start : ℕ)
    (endOpt : Option ℕ) :
    (Api.mediaStreamRange n none false =
      { status := 200, contentRange := none, contentLength := some n,
        bodyLen := n }) ∧
    (Api.mediaStreamRange n none true =
      { status := 200, contentRange := none, contentLength := some n,
        bodyLen := 0 }) ∧
    (Api.parseSingleRange (jsTrim r) = none →
      Api.mediaStreamRange n (some r) false =
        { status := 200, contentRange := none, contentLength := some n,
          bodyLen := n }) ∧
    (Api.parseSingleRange (jsTrim r) = some (start, endOpt) →
      (n ≤ start →
        Api.mediaStreamRange n (some r) false =
          { status := 416,
            contentRange := some (Api.ContentRange.unsatisfied n),
            contentLength := none, bodyLen := 0 }) ∧
      (start < n →
        ∀ e, e = (match endOpt with
            | some er => min (n - 1) (max start er)
            | none => n - 1) →
          Api.mediaStreamRange n (some r) false =
            { status := 206,
              contentRange := some (Api.ContentRange.seg start e n),
              contentLength := some (e - start + 1),
              bodyLen := e - start + 1 } ∧
          Api.mediaStreamRange n (some r) true =
            { status := 206,
              contentRange := some (Api.ContentRange.seg start e n),
              contentLength := some (e - start + 1), bodyLen := 0 })) := by
  have hnz : n ≠ 0 := by omega
  have hp0 : Api.parseSingleRange (jsTrim "") = none := by decide
  refine ⟨?_, ?_, ?_, ?_⟩
  · simp [Api.mediaStreamRange, hnz, hp0]
  · simp [Api.mediaStreamRange, hnz, hp0]
  · intro hp
    simp [Api.mediaStreamRange, hnz, hp]
  · intro hp
    cases endOpt with
    | none =>
      constructor
      · intro hge
        have hc : ¬ (start < n ∧ start ≤ n - 1 ∧ n - 1 < n) := by omega
        simp [Api.mediaStreamRange, hnz, hp, hc]
        omega
      · intro hlt e he
        subst he
        have hc : start < n ∧ start ≤ n - 1 ∧ n - 1 < n := by omega
        constructor <;> simp [Api.mediaStreamRange, hnz, hp, hc]
    | some er =>
      constructor
      · intro hge
        have hc : ¬ (start < n ∧ start ≤ min (n - 1) (max start er) ∧
            min (n - 1) (max start er) < n) := by omega
        simp [Api.mediaStreamRange, hnz, hp, hc]
        omega
      · intro hlt e he
        subst he
        have hc : start < n ∧ start ≤ min (n - 1) (max start er) ∧
            min (n - 1) (max start er) < n := by omega
        constructor <;> simp [Api.mediaStreamRange, hnz, hp, hc]

/-- C5, witness at n = 4: bytes=0-3 yields 206 with the full four bytes,
bytes=4-4 yields 416, bytes=0- yields the full file, and no Range yields 200
with Content-Length 4. -/
theorem streamRange_behavior_witness :
    (Api.mediaStreamRange 4 none false =
      { status := 200, contentRange := none, contentLength := some 4,
        bodyLen := 4 }) ∧
    (Api.mediaStreamRange 4 (some "bytes=0-3") false =
      { status := 206, contentRange := some (Api.ContentRange.seg 0 3 4),
        contentLength := some 4, bodyLen := 4 }) ∧
    (Api.mediaStreamRange 4 (some "bytes=4-4") false =
      { status := 416, contentRange := some (Api.ContentRange.unsatisfied 4),
        contentLength := none, bodyLen := 0 }) ∧
    (Api.mediaStreamRange 4 (some "bytes=0-") false =
      { status := 206, contentRange := some (Api.ContentRange.seg 0 3 4),
        contentLength := some 4, bodyLen := 4 }) := by
  have h1 := (streamRange_behavior 4 (by decide) "bytes=0-3" 0 (some 3)).2.2.2
    (by decide)
  have h2 := (streamRange_behavior 4 (by decide) "bytes=4-4" 4 (some 4)).2.2.2
    (by decide)
  have h3 := (streamRange_behavior 4 (by decide) "bytes=0-" 0 none).2.2.2
    (by decide)
  refine ⟨(streamRange_behavior 4 (by decide) "" 0 none).1, ?_, ?_, ?_⟩
  · exact (h1.2 (by decide) 3 (by decide)).1
  · exact h2.1 (by decide)
  · exact (h3.2 (by decide) 3 (by decide)).1

/-- C8, counterexample. The claim says exactly one classification cause
holds for a VR row; a probe with stereo3d side data on a 3840x1920 frame
makes both the side-data cause and the dimension heuristic hold at once
(the code combines them with a disjunction, not a partition). -/
theorem vrCause_not_exactly_one :
    Scanner.scanIsVr
      (some { spherical := false, boundLeft := none, boundRight := none,
              stereo3d := true, width := some 3840, height := some 1920 })
      "clips/a.mp4" = true ∧
    ¬ Scanner.exactlyOneCause
      (some { spherical := false, boundLeft := none, boundRight := none,
              stereo3d := true, width := some 3840, height := some 1920 })
      "clips/a.mp4" := by
  have hfd : Ffprobe.fovFromDimensions 3840 1920 = some 360 := by
    norm_num [Ffprobe.fovFromDimensions]
  constructor
  · simp [Scanner.scanIsVr, Ffprobe.probeIsVr, Ffprobe.probeFov, hfd]
  · simp [Scanner.exactlyOneCause, Scanner.countTrue, Scanner.causeSideData,
      Scanner.causeDimensions, hfd]

/-- C8 (amended): every row the scan classifies as VR has at least one of
the three causes (side data present, dimension heuristic matched, path
token heuristic matched) — the causes can overlap, so "exactly one" fails —
and the token-heuristic fallback decides the flag only when the probe does
not flag VR, while a probe flag alone suffices. -/
theorem vrCauses_at_least_one (probe : Option Ffprobe.ProbeData)
    (relPath : String) (h : Scanner.scanIsVr probe relPath = true) :
    (Scanner.causeSideData probe || Scanner.causeDimensions probe ||
      Scanner.causeToken relPath) = true ∧
    (∀ p, probe = some p → Ffprobe.probeIsVr p = false →
      Scanner.scanIsVr probe relPath = Scanner.isVrFromRelPath relPath) ∧
    (∀ p, probe = some p → Ffprobe.probeIsVr p = true →
      Scanner.scanIsVr probe relPath = true) := by
  refine ⟨?_, ?_, ?_⟩
  · cases probe with
    | none =>
      simp [Scanner.scanIsVr] at h
      simp [Scanner.causeToken, h]
    | some p =>
      by_cases hp : Ffprobe.probeIsVr p = true
      · rcases p with ⟨sph, bl, br, st3, w, hgt⟩
        cases sph with
        | true => simp [Scanner.causeSideData]
        | false =>
          cases st3 with
          | true => simp [Scanner.causeSideData]
          | false =>
            simp only [Ffprobe.probeIsVr, Ffprobe.probeFov, Bool.false_or,
              Bool.or_false, if_false, Bool.false_eq_true] at hp
            cases w with
            | none => simp at hp
            | some wv =>
              cases hgt with
              | none => simp at hp
              | some hv =>
                simp only [Option.isSome] at hp
                simp [Scanner.causeDimensions]
                cases hfd : Ffprobe.fovFromDimensions wv hv with
                | none => rw [hfd] at hp; simp at hp
                | some f => simp
      · have hp' : Ffprobe.probeIsVr p = false := by
          revert hp; cases Ffprobe.probeIsVr p <;> simp
        simp [Scanner.scanIsVr, hp'] at h
        simp [Scanner.causeToken, h]
  · intro p hpe hpf
    subst hpe
    simp [Scanner.scanIsVr, hpf]
  · intro p hpe hpt
    subst hpe
    simp [Scanner.scanIsVr, hpt]

/-- C8, witness: a probe carrying spherical side data is classified VR and
exhibits a cause. -/
theorem vrCauses_at_least_one_witness :
    (Scanner.causeSideData
        (some { spherical := true, boundLeft := none, boundRight := none,
                stereo3d := false, width := none, height := none }) ||
      Scanner.causeDimensions
        (some { spherical := true, boundLeft := none, boundRight := none,
                stereo3d := false, width := none, height := none }) ||
      Scanner.causeToken "movie.mp4") = true ∧
    (∀ p, (some { spherical := true, boundLeft := none, boundRight := none,
                  stereo3d := false, width := none, height := none } :
        Option Ffprobe.ProbeData) = some p → Ffprobe.probeIsVr p = false →
      Scanner.scanIsVr
        (some { spherical := true, boundLeft := none, boundRight := none,
                stereo3d := false, width := none, height := none })
        "movie.mp4" = Scanner.isVrFromRelPath "movie.mp4") ∧
    (∀ p, (some { spherical := true, boundLeft := none, boundRight := none,
                  stereo3d := false, width := none, height := none } :
        Option Ffprobe.ProbeData) = some p → Ffprobe.probeIsVr p = true →
      Scanner.scanIsVr
        (some { spherical := true, boundLeft := none, boundRight := none,
                stereo3d := false, width := none, height := none })
        "movie.mp4" = true) :=
  vrCauses_at_least_one
    (some { spherical := true, boundLeft := none, boundRight := none,
            stereo3d := false, width := none, height := none })
    "movie.mp4" (by decide)

/-- C6: for every POST /heresphere/event whose body id parses to a media id
through the …/heresphere/video/:id pattern and carries a numeric time, the
handler responds 204 and publishes (hence commits, through
upsertSyncPlaybackState and a broadcast) a sync update with that media id,
timeMs = max(0, round(time)), paused exactly for event codes 0, 2 and 3,
fps = 30, frame = floor(timeMs/1000*30), and fromClientId "vr:heresphere"
or "vr:heresphere:<connectionKey>" when a connection key is present. -/
theorem heresphereEvent_commits_update (q : Option String)
    (body : VrIntegrations.HsEventBody) (m : String) (t : ℚ)
    (hid : VrIntegrations.parseVideoIdFromHereSphereEventId body.id = some m)
    (ht : body.time = some t) :
    (VrIntegrations.heresphereEventHandler q body).status = 204 ∧
    ∃ pub, (VrIntegrations.heresphereEventHandler q body).publish = some pub ∧
      pub.sessionId = normalizeSessionId (q.getD "default") ∧
      pub.mediaId = some m ∧
      pub.timeMs = ((max 0 (jsRound t) : ℤ) : ℚ) ∧
      (pub.paused = true ↔
        (body.event = some 0 ∨ body.event = some 2 ∨ body.event = some 3)) ∧
      pub.fps = 30 ∧
      pub.frame = ((⌊((max 0 (jsRound t) : ℤ) : ℚ) / 1000 * 30⌋ : ℤ) : ℚ) ∧
      pub.fromClientId =
        (if jsTrim (body.connectionKey.getD "") = "" then "vr:heresphere"
         else "vr:heresphere:" ++ jsTrim (body.connectionKey.getD "")) := by
  have hfloor : (0 : ℤ) ≤ ⌊((max 0 (jsRound t) : ℤ) : ℚ) / 1000 * 30⌋ := by
    apply Int.le_floor.mpr
    push_cast
    positivity
  refine ⟨rfl, ?_⟩
  simp only [VrIntegrations.heresphereEventHandler, hid, ht, Option.map_some]
  refine ⟨_, rfl, rfl, rfl, rfl, ?_, rfl, ?_, ?_⟩
  · simp only [decide_eq_true_eq]
    tauto
  · simp only
    rw [max_eq_right hfloor]
  · by_cases hck : jsTrim (body.connectionKey.getD "") = ""
    · simp [hck]
    · simp [hck]

/-- C6, witness: the literal scenario of the spec, id
http://h/heresphere/video/m7 with time 5000 and event 1. -/
theorem heresphereEvent_commits_update_witness :
    (VrIntegrations.heresphereEventHandler none
      { id := some "http://h/heresphere/video/m7", time := some 5000,
        event := some 1, connectionKey := none }).status = 204 ∧
    ∃ pub, (VrIntegrations.heresphereEventHandler none
      { id := some "http://h/heresphere/video/m7", time := some 5000,
        event := some 1, connectionKey := none }).publish = some pub ∧
      pub.sessionId = normalizeSessionId ((none : Option String).getD "default") ∧
      pub.mediaId = some "m7" ∧
      pub.timeMs = ((max 0 (jsRound 5000) : ℤ) : ℚ) ∧
      (pub.paused = true ↔
        ((some (1 : ℚ) : Option ℚ) = some 0 ∨ (some (1 : ℚ) : Option ℚ) = some 2 ∨
          (some (1 : ℚ) : Option ℚ) = some 3)) ∧
      pub.fps = 30 ∧
      pub.frame = ((⌊((max 0 (jsRound 5000) : ℤ) : ℚ) / 1000 * 30⌋ : ℤ) : ℚ) ∧
      pub.fromClientId =
        (if jsTrim ((none : Option String).getD "") = "" then "vr:heresphere"
         else "vr:heresphere:" ++ jsTrim ((none : Option String).getD "")) :=
  heresphereEvent_commits_update none
    { id := some "http://h/heresphere/video/m7", time := some 5000,
      event := some 1, connectionKey := none } "m7" 5000 (by decide) rfl

/-- C3, counterexample. Client A holds two live sockets; closing only one of
them already removes A's metadata, so the broadcast emitted by the close
carries an empty clients list even though A's other socket is still
registered (and a broadcast is emitted although this was not the last
socket). The claim says the presence entry should have survived. -/
theorem closeHandler_presence_dropped_early :
    alLookup (Hub.wsCloseHandler
      { clientMetadata := [("A", { userAgent := "ua", ipAddress := "ip" })]
        clientUiStatus := []
        clientsById := [("A",
          [{ sockId := 1, clientId := some "A", sessionId := some "default",
             userAgent := "ua", ipAddress := "ip", readyState := 1 },
           { sockId := 2, clientId := some "A", sessionId := some "default",
             userAgent := "ua", ipAddress := "ip", readyState := 1 }])]
        sessionPlayAt := []
        sessionPlayAtLocalMs := []
        sessionCapturedAtLocalMs := []
        syncStore := [] }
      { sockId := 1, clientId := some "A", sessionId := some "default",
        userAgent := "ua", ipAddress := "ip", readyState := 1 }).hub.clientsById
      "A" =
      some [{ sockId := 2, clientId := some "A", sessionId := some "default",
              userAgent := "ua", ipAddress := "ip", readyState := 1 }] ∧
    (Hub.wsCloseHandler
      { clientMetadata := [("A", { userAgent := "ua", ipAddress := "ip" })]
        clientUiStatus := []
        clientsById := [("A",
          [{ sockId := 1, clientId := some "A", sessionId := some "default",
             userAgent := "ua", ipAddress := "ip", readyState := 1 },
           { sockId := 2, clientId := some "A", sessionId := some "default",
             userAgent := "ua", ipAddress := "ip", readyState := 1 }])]
        sessionPlayAt := []
        sessionPlayAtLocalMs := []
        sessionCapturedAtLocalMs := []
        syncStore := [] }
      { sockId := 1, clientId := some "A", sessionId := some "default",
        userAgent := "ua", ipAddress := "ip", readyState := 1 }).broadcast =
      some { state :=
              { sessionId := "default", mediaId := none, timeMs := 0,
                paused := true, fps := 30, frame := 0, fromClientId := "",
                updatedAt := 0, playAt := none, playAtLocalMs := none,
                capturedAtLocalMs := none }
             clients := [] } := by
  constructor <;> decide

/-- C3 (amended): closing any socket that had completed sync:hello deletes
the client's metadata and UI status outright — so the next broadcast's
clients list omits that clientId even when other sockets of the same client
remain — while the socket set entry is removed only when the last socket
closes; a broadcast is emitted on every such close that had a session,
not only on the last one. -/
theorem closeHandler_removes_metadata_every_close (h : Hub.HubState)
    (ws : Hub.WsClient) (cid : String) (hcid : ws.clientId = some cid) :
    (Hub.wsCloseHandler h ws).hub.clientMetadata =
      alDelete h.clientMetadata cid ∧
    (Hub.wsCloseHandler h ws).hub.clientUiStatus =
      alDelete h.clientUiStatus cid ∧
    (∀ entries, alLookup h.clientsById cid = some entries →
      alLookup (Hub.wsCloseHandler h ws).hub.clientsById cid =
        (if entries.filter (fun w => w ≠ ws) = [] then none
         else some (entries.filter (fun w => w ≠ ws)))) ∧
    (∀ b, (Hub.wsCloseHandler h ws).broadcast = some b →
      ∀ e ∈ b.clients, e.clientId ≠ cid) ∧
    ((Hub.wsCloseHandler h ws).broadcast.isSome ↔ ws.sessionId.isSome) := by
  have hmeta : ∀ e ∈ Hub.buildClientsList
      { h with
        clientMetadata := alDelete h.clientMetadata cid
        clientUiStatus := alDelete h.clientUiStatus cid
        clientsById := (Hub.wsCloseHandler h ws).hub.clientsById },
      e.clientId ≠ cid := by
    intro e he
    simp only [Hub.buildClientsList, List.mem_map] at he
    obtain ⟨p, hp, he⟩ := he
    have := alDelete_keys h.clientMetadata cid p hp
    rw [← he]
    exact this
  cases hsess : ws.sessionId with
  | none =>
    refine ⟨?_, ?_, ?_, ?_, ?_⟩ <;>
      simp_all [Hub.wsCloseHandler, hcid, hsess]
    intro entries hent
    split <;> simp [alLookup_alDelete, alLookup_alSet]
  | some sid =>
    refine ⟨?_, ?_, ?_, ?_, ?_⟩
    · simp [Hub.wsCloseHandler, hcid, hsess]
    · simp [Hub.wsCloseHandler, hcid, hsess]
    · intro entries hent
      simp only [Hub.wsCloseHandler, hcid, hsess, hent]
      split <;> simp [alLookup_alDelete, alLookup_alSet]
    · intro b hb e he
      simp only [Hub.wsCloseHandler, hcid, hsess, Option.some.injEq] at hb
      subst hb
      refine hmeta e ?_
      simpa [Hub.broadcastSyncState, Hub.wsCloseHandler, hcid, hsess] using he
    · simp [Hub.wsCloseHandler, hcid, hsess]

/-- C3, witness for the amended theorem: the two-socket scenario of the
counterexample, instantiated. -/
theorem closeHandler_removes_metadata_every_close_witness :
    (Hub.wsCloseHandler
      { clientMetadata := [("A", { userAgent := "ua", ipAddress := "ip" })]
        clientUiStatus := []
        clientsById := [("A",
          [{ sockId := 1, clientId := some "A", sessionId := some "default",
             userAgent := "ua", ipAddress := "ip", readyState := 1 },
           { sockId := 2, clientId := some "A", sessionId := some "default",
             userAgent := "ua", ipAddress := "ip", readyState := 1 }])]
        sessionPlayAt := []
        sessionPlayAtLocalMs := []
        sessionCapturedAtLocalMs := []
        syncStore := [] }
      { sockId := 1, clientId := some "A", sessionId := some "default",
        userAgent := "ua", ipAddress := "ip", readyState := 1 }).hub.clientMetadata =
      alDelete [("A", { userAgent := "ua", ipAddress := "ip" })] "A" ∧
    (Hub.wsCloseHandler
      { clientMetadata := [("A", { userAgent := "ua", ipAddress := "ip" })]
        clientUiStatus := []
        clientsById := [("A",
          [{ sockId := 1, clientId := some "A", sessionId := some "default",
             userAgent := "ua", ipAddress := "ip", readyState := 1 },
           { sockId := 2, clientId := some "A", sessionId := some "default",
             userAgent := "ua", ipAddress := "ip", readyState := 1 }])]
        sessionPlayAt := []
        sessionPlayAtLocalMs := []
        sessionCapturedAtLocalMs := []
        syncStore := [] }
      { sockId := 1, clientId := some "A", sessionId := some "default",
        userAgent := "ua", ipAddress := "ip", readyState := 1 }).hub.clientUiStatus =
      alDelete [] "A" ∧
    (∀ entries,
      alLookup [("A",
        [{ sockId := 1, clientId := some "A", sessionId := some "default",
           userAgent := "ua", ipAddress := "ip", readyState := 1 },
         { sockId := 2, clientId := some "A", sessionId := some "default",
           userAgent := "ua", ipAddress := "ip", readyState := 1 }])] "A" =
        some entries →
      alLookup (Hub.wsCloseHandler
        { clientMetadata := [("A", { userAgent := "ua", ipAddress := "ip" })]
          clientUiStatus := []
          clientsById := [("A",
            [{ sockId := 1, clientId := some "A", sessionId := some "default",
               userAgent := "ua", ipAddress := "ip", readyState := 1 },
             { sockId := 2, clientId := some "A", sessionId := some "default",
               userAgent := "ua", ipAddress := "ip", readyState := 1 }])]
          sessionPlayAt := []
          sessionPlayAtLocalMs := []
          sessionCapturedAtLocalMs := []
          syncStore := [] }
        { sockId := 1, clientId := some "A", sessionId := some "default",
          userAgent := "ua", ipAddress := "ip", readyState := 1 }).hub.clientsById
        "A" =
        (if entries.filter (fun w => w ≠
            { sockId := 1, clientId := some "A", sessionId := some "default",
              userAgent := "ua", ipAddress := "ip", readyState := 1 }) = []
          then none
          else some (entries.filter (fun w => w ≠
            { sockId := 1, clientId := some "A", sessionId := some "default",
              userAgent := "ua", ipAddress := "ip", readyState := 1 })))) ∧
    (∀ b, (Hub.wsCloseHandler
        { clientMetadata := [("A", { userAgent := "ua", ipAddress := "ip" })]
          clientUiStatus := []
          clientsById := [("A",
            [{ sockId := 1, clientId := some "A", sessionId := some "default",
               userAgent := "ua", ipAddress := "ip", readyState := 1 },
             { sockId := 2, clientId := some "A", sessionId := some "default",
               userAgent := "ua", ipAddress := "ip", readyState := 1 }])]
          sessionPlayAt := []
          sessionPlayAtLocalMs := []
          sessionCapturedAtLocalMs := []
          syncStore := [] }
        { sockId := 1, clientId := some "A", sessionId := some "default",
          userAgent := "ua", ipAddress := "ip", readyState := 1 }).broadcast =
        some b → ∀ e ∈ b.clients, e.clientId ≠ "A") ∧
    ((Hub.wsCloseHandler
      { clientMetadata := [("A", { userAgent := "ua", ipAddress := "ip" })]
        clientUiStatus := []
        clientsById := [("A",
          [{ sockId := 1, clientId := some "A", sessionId := some "default",
             userAgent := "ua", ipAddress := "ip", readyState := 1 },
           { sockId := 2, clientId := some "A", sessionId := some "default",
             userAgent := "ua", ipAddress := "ip", readyState := 1 }])]
        sessionPlayAt := []
        sessionPlayAtLocalMs := []
        sessionCapturedAtLocalMs := []
        syncStore := [] }
      { sockId := 1, clientId := some "A", sessionId := some "default",
        userAgent := "ua", ipAddress := "ip", readyState := 1 }).broadcast.isSome ↔
      (some "default" : Option String).isSome) :=
  closeHandler_removes_metadata_every_close
    { clientMetadata := [("A", { userAgent := "ua", ipAddress := "ip" })]
      clientUiStatus := []
      clientsById := [("A",
        [{ sockId := 1, clientId := some "A", sessionId := some "default",
           userAgent := "ua", ipAddress := "ip", readyState := 1 },
         { sockId := 2, clientId := some "A", sessionId := some "default",
           userAgent := "ua", ipAddress := "ip", readyState := 1 }])]
      sessionPlayAt := []
      sessionPlayAtLocalMs := []
      sessionCapturedAtLocalMs := []
      syncStore := [] }
    { sockId := 1, clientId := some "A", sessionId := some "default",
      userAgent := "ua", ipAddress := "ip", readyState := 1 } "A" rfl

/-- C4: committing a sync:update with paused = true (or a paused = false
update that omits playAt) clears the session's ephemeral playAt and
playAtLocalMs, and any broadcast composed over a session whose stored state
is paused carries no playAt field — in particular the broadcast emitted by a
paused commit. -/
theorem pausedCommit_clears_playAt (h : Hub.HubState) (ws : Hub.WsClient)
    (msg : Hub.SyncUpdateMsg) (dp : String → Option ℤ) (ir : ℤ → String)
    (now : ℤ)
    (hto : jsTrim (msg.toClientId.getD "") = "")
    (hcid : Hub.resolvedClientId ws msg ≠ "")
    (hmid : Hub.resolvedMediaId msg ≠ some "") :
    (msg.paused = true →
      alLookup (Hub.syncUpdateHandler h ws msg dp ir now).hub.sessionPlayAt
        (Hub.resolvedSessionId ws msg) = none ∧
      alLookup (Hub.syncUpdateHandler h ws msg dp ir now).hub.sessionPlayAtLocalMs
        (Hub.resolvedSessionId ws msg) = none) ∧
    (msg.paused = false → msg.playAt = none →
      alLookup (Hub.syncUpdateHandler h ws msg dp ir now).hub.sessionPlayAt
        (Hub.resolvedSessionId ws msg) = none ∧
      alLookup (Hub.syncUpdateHandler h ws msg dp ir now).hub.sessionPlayAtLocalMs
        (Hub.resolvedSessionId ws msg) = none) ∧
    (msg.paused = true →
      ∃ b, (Hub.syncUpdateHandler h ws msg dp ir now).broadcast = some b ∧
        b.state.playAt = none) ∧
    (∀ (h' : Hub.HubState) (sid : String),
      (RuntimeState.getSyncPlaybackState h'.syncStore sid).paused = true →
      (Hub.broadcastSyncState h' sid).state.playAt = none) := by
  have hdrop : ¬ (Hub.resolvedClientId ws msg = "" ∨
      Hub.resolvedMediaId msg = some "") := by
    intro hd
    rcases hd with hd | hd
    · exact hcid hd
    · exact hmid hd
  have hgen : ∀ (h' : Hub.HubState) (sid : String),
      (RuntimeState.getSyncPlaybackState h'.syncStore sid).paused = true →
      (Hub.broadcastSyncState h' sid).state.playAt = none := by
    intro h' sid hp
    simp [Hub.broadcastSyncState, hp]
  refine ⟨?_, ?_, ?_, hgen⟩
  · intro hp
    simp only [Hub.syncUpdateHandler, hdrop, if_false, hto, hp]
    constructor <;> simp [alLookup_alDelete]
  · intro hp hpa
    simp only [Hub.syncUpdateHandler, hdrop, if_false, hto, hp, hpa]
    constructor <;> simp [alLookup_alDelete]
  · intro hp
    refine ⟨Hub.broadcastSyncState (Hub.syncUpdateHandler h ws msg dp ir now).hub
      (Hub.resolvedSessionId ws msg), ?_, ?_⟩
    · simp [Hub.syncUpdateHandler, hdrop, hto]
    · apply hgen
      simp [Hub.syncUpdateHandler, hdrop, hto,
        RuntimeState.getSyncPlaybackState, RuntimeState.upsertSyncPlaybackState,
        alLookup_alSet, hp]

/-- C4, witness: a paused commit on session s1 leaves no playAt ephemeral
and its broadcast carries no playAt. -/
theorem pausedCommit_clears_playAt_witness :
    alLookup (Hub.syncUpdateHandler
      { clientMetadata := [], clientUiStatus := [], clientsById := [],
        sessionPlayAt := [("s1", "2020-01-01T00:00:00.000Z")],
        sessionPlayAtLocalMs := [("s1", 4)], sessionCapturedAtLocalMs := [],
        syncStore := [] }
      { sockId := 1, clientId := some "A", sessionId := some "s1",
        userAgent := "u", ipAddress := "i", readyState := 1 }
      { clientId := none, sessionId := none, mediaId := some (some "m1"),
        timeMs := some 5, paused := true, fps := some 30, frame := some 0,
        playAt := none, playAtLocalMs := none, capturedAtLocalMs := none,
        toClientId := none, openInUi := none, seekToken := none,
        seekPhase := none, seekWantPlay := none, seekTargetClientId := none }
      (fun _ => none) (fun _ => "") 7).hub.sessionPlayAt
      (Hub.resolvedSessionId
        { sockId := 1, clientId := some "A", sessionId := some "s1",
          userAgent := "u", ipAddress := "i", readyState := 1 }
        { clientId := none, sessionId := none, mediaId := some (some "m1"),
          timeMs := some 5, paused := true, fps := some 30, frame := some 0,
          playAt := none, playAtLocalMs := none, capturedAtLocalMs := none,
          toClientId := none, openInUi := none, seekToken := none,
          seekPhase := none, seekWantPlay := none,
          seekTargetClientId := none }) = none ∧
    alLookup (Hub.syncUpdateHandler
      { clientMetadata := [], clientUiStatus := [], clientsById := [],
        sessionPlayAt := [("s1", "2020-01-01T00:00:00.000Z")],
        sessionPlayAtLocalMs := [("s1", 4)], sessionCapturedAtLocalMs := [],
        syncStore := [] }
      { sockId := 1, clientId := some "A", sessionId := some "s1",
        userAgent := "u", ipAddress := "i", readyState := 1 }
      { clientId := none, sessionId := none, mediaId := some (some "m1"),
        timeMs := some 5, paused := true, fps := some 30, frame := some 0,
        playAt := none, playAtLocalMs := none, capturedAtLocalMs := none,
        toClientId := none, openInUi := none, seekToken := none,
        seekPhase := none, seekWantPlay := none, seekTargetClientId := none }
      (fun _ => none) (fun _ => "") 7).hub.sessionPlayAtLocalMs
      (Hub.resolvedSessionId
        { sockId := 1, clientId := some "A", sessionId := some "s1",
          userAgent := "u", ipAddress := "i", readyState := 1 }
        { clientId := none, sessionId := none, mediaId := some (some "m1"),
          timeMs := some 5, paused := true, fps := some 30, frame := some 0,
          playAt := none, playAtLocalMs := none, capturedAtLocalMs := none,
          toClientId := none, openInUi := none, seekToken := none,
          seekPhase := none, seekWantPlay := none,
          seekTargetClientId := none }) = none ∧
    (∃ b, (Hub.syncUpdateHandler
      { clientMetadata := [], clientUiStatus := [], clientsById := [],
        sessionPlayAt := [("s1", "2020-01-01T00:00:00.000Z")],
        sessionPlayAtLocalMs := [("s1", 4)], sessionCapturedAtLocalMs := [],
        syncStore := [] }
      { sockId := 1, clientId := some "A", sessionId := some "s1",
        userAgent := "u", ipAddress := "i", readyState := 1 }
      { clientId := none, sessionId := none, mediaId := some (some "m1"),
        timeMs := some 5, paused := true, fps := some 30, frame := some 0,
        playAt := none, playAtLocalMs := none, capturedAtLocalMs := none,
        toClientId := none, openInUi := none, seekToken := none,
        seekPhase := none, seekWantPlay := none, seekTargetClientId := none }
      (fun _ => none) (fun _ => "") 7).broadcast = some b ∧
      b.state.playAt = none) := by
  have H := pausedCommit_clears_playAt
    { clientMetadata := [], clientUiStatus := [], clientsById := [],
      sessionPlayAt := [("s1", "2020-01-01T00:00:00.000Z")],
      sessionPlayAtLocalMs := [("s1", 4)], sessionCapturedAtLocalMs := [],
      syncStore := [] }
    { sockId := 1, clientId := some "A", sessionId := some "s1",
      userAgent := "u", ipAddress := "i", readyState := 1 }
    { clientId := none, sessionId := none, mediaId := some (some "m1"),
      timeMs := some 5, paused := true, fps := some 30, frame := some 0,
      playAt := none, playAtLocalMs := none, capturedAtLocalMs := none,
      toClientId := none, openInUi := none, seekToken := none,
      seekPhase := none, seekWantPlay := none, seekTargetClientId := none }
    (fun _ => none) (fun _ => "") 7 (by decide) (by decide) (by decide)
  exact ⟨(H.1 rfl).1, (H.1 rfl).2, H.2.2.1 rfl⟩

theorem sendSyncStateToClient_spec (h : Hub.HubState)
    (sessionId toClientId : String) (state : Hub.TargetedState) :
    (∀ u ∈ Hub.sendSyncStateToClient h sessionId toClientId state,
      ∃ targets, alLookup h.clientsById toClientId = some targets ∧
        u.target ∈ targets ∧ u.target.readyState = 1 ∧
        u.state.fromClientId = state.fromClientId ∧
        u.state.mediaId = state.mediaId ∧
        u.state.timeMs = state.timeMs ∧
        u.state.paused = state.paused ∧
        u.state.fps = state.fps ∧
        u.state.frame = state.frame ∧
        u.state.openInUi = state.openInUi ∧
        u.state.seekToken = state.seekToken ∧
        u.state.seekPhase = state.seekPhase ∧
        u.state.seekWantPlay = state.seekWantPlay ∧
        u.state.seekTargetClientId = state.seekTargetClientId) ∧
    (∀ targets, alLookup h.clientsById toClientId = some targets →
      ∀ w ∈ targets, w.readyState = 1 →
        ∃ u ∈ Hub.sendSyncStateToClient h sessionId toClientId state,
          u.target = w) := by
  constructor
  · intro u hu
    cases hlk : alLookup h.clientsById toClientId with
    | none => simp only [Hub.sendSyncStateToClient, hlk] at hu; simp at hu
    | some targets =>
      simp only [Hub.sendSyncStateToClient, hlk] at hu
      by_cases hemp : targets = []
      · rw [if_pos hemp] at hu; simp at hu
      · rw [if_neg hemp] at hu
        simp only [List.mem_map] at hu
        obtain ⟨w, hwmem, hu⟩ := hu
        refine ⟨targets, rfl, ?_⟩
        have hw1 : w ∈ targets := List.mem_of_mem_filter hwmem
        have hw2 : w.readyState = 1 := by
          have := List.of_mem_filter hwmem
          simpa using this
        subst hu
        simp [hw1, hw2]
  · intro targets hlk w hw hw1
    simp only [Hub.sendSyncStateToClient, hlk]
    have hemp : targets ≠ [] := by
      intro he
      rw [he] at hw
      simp at hw
    rw [if_neg hemp]
    simp only [List.mem_map]
    refine ⟨_, ⟨w, ?_, rfl⟩, rfl⟩
    simp [List.mem_filter, hw, hw1]

@[simp] theorem applyCapturedAtLocalMs_clientsById (h : Hub.HubState)
    (sid : String) (v : Option ℚ) :
    (Hub.applyCapturedAtLocalMs h sid v).clientsById = h.clientsById := by
  unfold Hub.applyCapturedAtLocalMs
  cases v with
  | none => rfl
  | some c =>
    by_cases h0 : (0 : ℚ) < c
    · simp [h0]
    · simp [h0]

@[simp] theorem applyCapturedAtLocalMs_syncStore (h : Hub.HubState)
    (sid : String) (v : Option ℚ) :
    (Hub.applyCapturedAtLocalMs h sid v).syncStore = h.syncStore := by
  unfold Hub.applyCapturedAtLocalMs
  cases v with
  | none => rfl
  | some c =>
    by_cases h0 : (0 : ℚ) < c
    · simp [h0]
    · simp [h0]

@[simp] theorem applyPlayAtParsing_clientsById (h : Hub.HubState)
    (sid : String) (pf : Option (Option String)) (plm : Option ℚ)
    (dp : String → Option ℤ) (ir : ℤ → String) :
    (Hub.applyPlayAtParsing h sid pf plm dp ir).clientsById = h.clientsById := by
  unfold Hub.applyPlayAtParsing
  cases pf with
  | none => rfl
  | some o =>
    cases o with
    | none => rfl
    | some s =>
      by_cases hpa : jsTrim s = ""
      · simp [hpa]
      · simp only [if_neg hpa]
        cases dp (jsTrim s) <;> cases plm <;> simp <;> split <;> rfl

@[simp] theorem applyPlayAtParsing_syncStore (h : Hub.HubState)
    (sid : String) (pf : Option (Option String)) (plm : Option ℚ)
    (dp : String → Option ℤ) (ir : ℤ → String) :
    (Hub.applyPlayAtParsing h sid pf plm dp ir).syncStore = h.syncStore := by
  unfold Hub.applyPlayAtParsing
  cases pf with
  | none => rfl
  | some o =>
    cases o with
    | none => rfl
    | some s =>
      by_cases hpa : jsTrim s = ""
      · simp [hpa]
      · simp only [if_neg hpa]
        cases dp (jsTrim s) <;> cases plm <;> simp <;> split <;> rfl

/-- C2: a sync:update with a non-empty toClientId never touches the
committed session state and composes no broadcast; every message it sends
goes to a socket registered (and open) under that toClientId, carries
fromClientId = the sender's resolved clientId and the message's mediaId,
and passes through the seek-handshake fields that are present; conversely
every open registered socket of the target receives the message (when the
update is not dropped for a missing clientId or empty mediaId). -/
theorem targetedUpdate_no_commit_unicast (h : Hub.HubState)
    (ws : Hub.WsClient) (msg : Hub.SyncUpdateMsg) (dp : String → Option ℤ)
    (ir : ℤ → String) (now : ℤ)
    (hto : jsTrim (msg.toClientId.getD "") ≠ "") :
    (Hub.syncUpdateHandler h ws msg dp ir now).hub.syncStore = h.syncStore ∧
    (Hub.syncUpdateHandler h ws msg dp ir now).broadcast = none ∧
    (Hub.syncUpdateHandler h ws msg dp ir now).hub.clientsById =
      h.clientsById ∧
    (∀ u ∈ (Hub.syncUpdateHandler h ws msg dp ir now).unicasts, ∃ targets,
      alLookup h.clientsById (jsTrim (msg.toClientId.getD "")) = some targets ∧
      u.target ∈ targets ∧ u.target.readyState = 1 ∧
      u.state.fromClientId = Hub.resolvedClientId ws msg ∧
      u.state.mediaId = Hub.resolvedMediaId msg ∧
      (msg.openInUi = some true → u.state.openInUi = some true) ∧
      (∀ s, msg.seekToken = some s → jsTrim s ≠ "" →
        u.state.seekToken = some (jsTrim s)) ∧
      (∀ s, msg.seekPhase = some s → jsTrim s ≠ "" →
        u.state.seekPhase = some (jsTrim s)) ∧
      (∀ bb, msg.seekWantPlay = some bb → u.state.seekWantPlay = some bb) ∧
      (∀ s, msg.seekTargetClientId = some s → jsTrim s ≠ "" →
        u.state.seekTargetClientId = some (jsTrim s))) ∧
    (Hub.resolvedClientId ws msg ≠ "" → Hub.resolvedMediaId msg ≠ some "" →
      ∀ targets,
        alLookup h.clientsById (jsTrim (msg.toClientId.getD "")) =
          some targets →
        ∀ w ∈ targets, w.readyState = 1 →
          ∃ u ∈ (Hub.syncUpdateHandler h ws msg dp ir now).unicasts,
            u.target = w) := by
  by_cases hdropP : (Hub.resolvedClientId ws msg = "" ∨
      Hub.resolvedMediaId msg = some "")
  · refine ⟨?_, ?_, ?_, ?_, ?_⟩
    · simp [Hub.syncUpdateHandler, hdropP]
    · simp [Hub.syncUpdateHandler, hdropP]
    · simp [Hub.syncUpdateHandler, hdropP]
    · intro u hu
      simp [Hub.syncUpdateHandler, hdropP] at hu
    · intro hcid hmid
      rcases hdropP with hd | hd
      · exact absurd hd hcid
      · exact absurd hd hmid
  · refine ⟨?_, ?_, ?_, ?_, ?_⟩
    · simp [Hub.syncUpdateHandler, hdropP, hto]
    · simp [Hub.syncUpdateHandler, hdropP, hto]
    · simp [Hub.syncUpdateHandler, hdropP, hto]
    · intro u hu
      simp only [Hub.syncUpdateHandler] at hu
      rw [if_neg hdropP, if_pos hto] at hu
      have hspec := (sendSyncStateToClient_spec _ _ _ _).1 u hu
      obtain ⟨targets, hlk, htgt, hrdy, hfrom, hmed, _, _, _, _, hopen, htok,
        hphase, hwant, htarget⟩ := hspec
      simp only [applyPlayAtParsing_clientsById,
        applyCapturedAtLocalMs_clientsById] at hlk
      refine ⟨targets, by simpa using hlk, htgt, hrdy, by simpa using hfrom,
        by simpa using hmed, ?_, ?_, ?_, ?_, ?_⟩
      · intro hoi
        rw [hoi] at hopen
        simpa using hopen
      · intro s hs hns
        rw [hs] at htok
        simp only [hns] at htok
        simpa [hns] using htok
      · intro s hs hns
        rw [hs] at hphase
        simpa [hns] using hphase
      · intro bb hbb
        rw [hbb] at hwant
        simpa using hwant
      · intro s hs hns
        rw [hs] at htarget
        simpa [hns] using htarget
    · intro hcid hmid targets hlkg w hw hrdy
      simp only [Hub.syncUpdateHandler]
      rw [if_neg hdropP, if_pos hto]
      refine (sendSyncStateToClient_spec _ _ _ _).2 targets ?_ w hw hrdy
      simpa using hlkg

/-- C2, witness: the spec's targeted-seek scenario — client B sends a
targeted update to client A; the store is untouched, nothing is broadcast,
and A's open socket receives the unicast. -/
theorem targetedUpdate_no_commit_unicast_witness :
    (Hub.syncUpdateHandler
      { clientMetadata := [("A", { userAgent := "u", ipAddress := "i" }),
          ("B", { userAgent := "u", ipAddress := "i" })]
        clientUiStatus := []
        clientsById := [("A",
          [{ sockId := 1, clientId := some "A", sessionId := some "s1",
             userAgent := "u", ipAddress := "i", readyState := 1 }])]
        sessionPlayAt := []
        sessionPlayAtLocalMs := []
        sessionCapturedAtLocalMs := []
        syncStore := [] }
      { sockId := 2, clientId := some "B", sessionId := some "s1",
        userAgent := "u", ipAddress := "i", readyState := 1 }
      { clientId := none, sessionId := none, mediaId := some (some "m1"),
        timeMs := some 60000, paused := false, fps := some 30,
        frame := some 1800, playAt := none, playAtLocalMs := none,
        capturedAtLocalMs := none, toClientId := some "A",
        openInUi := none, seekToken := some "t1", seekPhase := some "prepare",
        seekWantPlay := none, seekTargetClientId := none }
      (fun _ => none) (fun _ => "") 11).hub.syncStore = [] ∧
    (Hub.syncUpdateHandler
      { clientMetadata := [("A", { userAgent := "u", ipAddress := "i" }),
          ("B", { userAgent := "u", ipAddress := "i" })]
        clientUiStatus := []
        clientsById := [("A",
          [{ sockId := 1, clientId := some "A", sessionId := some "s1",
             userAgent := "u", ipAddress := "i", readyState := 1 }])]
        sessionPlayAt := []
        sessionPlayAtLocalMs := []
        sessionCapturedAtLocalMs := []
        syncStore := [] }
      { sockId := 2, clientId := some "B", sessionId := some "s1",
        userAgent := "u", ipAddress := "i", readyState := 1 }
      { clientId := none, sessionId := none, mediaId := some (some "m1"),
        timeMs := some 60000, paused := false, fps := some 30,
        frame := some 1800, playAt := none, playAtLocalMs := none,
        capturedAtLocalMs := none, toClientId := some "A",
        openInUi := none, seekToken := some "t1", seekPhase := some "prepare",
        seekWantPlay := none, seekTargetClientId := none }
      (fun _ => none) (fun _ => "") 11).broadcast = none ∧
    (∃ u ∈ (Hub.syncUpdateHandler
      { clientMetadata := [("A", { userAgent := "u", ipAddress := "i" }),
          ("B", { userAgent := "u", ipAddress := "i" })]
        clientUiStatus := []
        clientsById := [("A",
          [{ sockId := 1, clientId := some "A", sessionId := some "s1",
             userAgent := "u", ipAddress := "i", readyState := 1 }])]
        sessionPlayAt := []
        sessionPlayAtLocalMs := []
        sessionCapturedAtLocalMs := []
        syncStore := [] }
      { sockId := 2, clientId := some "B", sessionId := some "s1",
        userAgent := "u", ipAddress := "i", readyState := 1 }
      { clientId := none, sessionId := none, mediaId := some (some "m1"),
        timeMs := some 60000, paused := false, fps := some 30,
        frame := some 1800, playAt := none, playAtLocalMs := none,
        capturedAtLocalMs := none, toClientId := some "A",
        openInUi := none, seekToken := some "t1", seekPhase := some "prepare",
        seekWantPlay := none, seekTargetClientId := none }
      (fun _ => none) (fun _ => "") 11).unicasts,
      u.target = { sockId := 1, clientId := some "A",
                   sessionId := some "s1", userAgent := "u",
                   ipAddress := "i", readyState := 1 }) := by
  have H := targetedUpdate_no_commit_unicast
    { clientMetadata := [("A", { userAgent := "u", ipAddress := "i" }),
        ("B", { userAgent := "u", ipAddress := "i" })]
      clientUiStatus := []
      clientsById := [("A",
        [{ sockId := 1, clientId := some "A", sessionId := some "s1",
           userAgent := "u", ipAddress := "i", readyState := 1 }])]
      sessionPlayAt := []
      sessionPlayAtLocalMs := []
      sessionCapturedAtLocalMs := []
      syncStore := [] }
    { sockId := 2, clientId := some "B", sessionId := some "s1",
      userAgent := "u", ipAddress := "i", readyState := 1 }
    { clientId := none, sessionId := none, mediaId := some (some "m1"),
      timeMs := some 60000, paused := false, fps := some 30,
      frame := some 1800, playAt := none, playAtLocalMs := none,
      capturedAtLocalMs := none, toClientId := some "A",
      openInUi := none, seekToken := some "t1", seekPhase := some "prepare",
      seekWantPlay := none, seekTargetClientId := none }
    (fun _ => none) (fun _ => "") 11 (by decide)
  refine ⟨H.1.trans rfl, H.2.1, ?_⟩
  exact H.2.2.2.2 (by decide) (by decide)
    [{ sockId := 1, clientId := some "A", sessionId := some "s1",
       userAgent := "u", ipAddress := "i", readyState := 1 }] (by decide)
    { sockId := 1, clientId := some "A", sessionId := some "s1",
      userAgent := "u", ipAddress := "i", readyState := 1 } (by decide) rfl

/-- C7, counterexample. A media switch leaves the superseded state object's
timers running (api.ts never clears them on switch). Playing X, switching
to Y at 1100, then a leaked tick of the old X object at 2000 followed by a
switch back to X at 2050 yields two consecutive playing publishes of the
same media X only 50 ms apart — the claimed per-key rate limit does not
hold. -/
theorem deovr_claim_rate_limit_fails :
    Deovr.chainOkB Deovr.claimRelB
      (Deovr.playingPubs (Deovr.runDeovr Deovr.initDeovr
        [Deovr.DeovrEvent.streamReq 1000 "X",
         Deovr.DeovrEvent.streamReq 1100 "Y",
         Deovr.DeovrEvent.dataChunk 0 1500,
         Deovr.DeovrEvent.dataChunk 0 1990,
         Deovr.DeovrEvent.tickFire 0 2000,
         Deovr.DeovrEvent.streamReq 2050 "X"]).2) = false := by decide

theorem updObj_map_oid (objs : List Deovr.DeovrObj) (oid : ℕ)
    (f : Deovr.DeovrObj → Deovr.DeovrObj) (hoid : ∀ o, (f o).oid = o.oid) :
    (Deovr.updObj objs oid f).map (fun o => o.oid) =
      objs.map (fun o => o.oid) := by
  unfold Deovr.updObj
  rw [List.map_map]
  apply List.map_congr_left
  intro o _
  by_cases hc : o.oid = oid
  · simp [hc, hoid]
  · simp [hc]

theorem invD_updObj (m : Deovr.DeovrModel) (last : Option Deovr.Publish)
    (oid : ℕ) (f : Deovr.DeovrObj → Deovr.DeovrObj)
    (hoid : ∀ o, (f o).oid = o.oid)
    (hmedia : ∀ o, (f o).mediaId = o.mediaId)
    (hpub : ∀ o, (f o).lastPublishAtMs = o.lastPublishAtMs)
    (hinv : Deovr.InvD m last) :
    Deovr.InvD { m with objs := Deovr.updObj m.objs oid f } last := by
  obtain ⟨hb, hnd, hmh, hlo⟩ := hinv
  refine ⟨?_, ?_, ?_, ?_⟩
  · intro o ho
    simp only [Deovr.updObj, List.mem_map] at ho
    obtain ⟨o₀, ho₀, rfl⟩ := ho
    by_cases hc : o₀.oid = oid
    · rw [if_pos hc, hoid]
      exact hb o₀ ho₀
    · rw [if_neg hc]
      exact hb o₀ ho₀
  · unfold Deovr.oidsNodup at hnd ⊢
    simp only
    rw [updObj_map_oid _ _ _ hoid]
    exact hnd
  · unfold Deovr.mapHead at hmh ⊢
    cases hobjs : m.objs with
    | nil => simp only [hobjs] at hmh; simp [Deovr.updObj, hobjs, hmh]
    | cons cur rest =>
      simp only [hobjs] at hmh
      simp only [Deovr.updObj, hobjs, List.map_cons]
      by_cases hc : cur.oid = oid
      · simp [hc, hmedia, hmh]
      · simp [hc, hmh]
  · cases last with
    | none => trivial
    | some pl =>
      obtain ⟨hplo, hall⟩ := hlo
      refine ⟨hplo, ?_⟩
      intro o ho hoo
      simp only [Deovr.updObj, List.mem_map] at ho
      obtain ⟨o₀, ho₀, rfl⟩ := ho
      by_cases hc : o₀.oid = oid
      · rw [if_pos hc] at hoo ⊢
        rw [hpub]
        exact hall o₀ ho₀ (by rw [← hoid o₀]; exact hoo)
      · rw [if_neg hc] at hoo ⊢
        exact hall o₀ ho₀ hoo

theorem oidsNodup_updObj (m : Deovr.DeovrModel) (oid : ℕ)
    (f : Deovr.DeovrObj → Deovr.DeovrObj) (hoid : ∀ o, (f o).oid = o.oid)
    (hnd : Deovr.oidsNodup m) :
    Deovr.oidsNodup { m with objs := Deovr.updObj m.objs oid f } := by
  unfold Deovr.oidsNodup at hnd ⊢
  simp only
  rw [updObj_map_oid _ _ _ hoid]
  exact hnd

theorem stepDeovr_inv (m : Deovr.DeovrModel) (e : Deovr.DeovrEvent)
    (last : Option Deovr.Publish) (hinv : Deovr.InvD m last) :
    ((Deovr.stepDeovr m e).2 = none →
      Deovr.InvD (Deovr.stepDeovr m e).1 last) ∧
    (∀ p, (Deovr.stepDeovr m e).2 = some p → p.paused = true →
      Deovr.InvD (Deovr.stepDeovr m e).1 last) ∧
    (∀ p, (Deovr.stepDeovr m e).2 = some p → p.paused = false →
      Deovr.InvD (Deovr.stepDeovr m e).1 (some p) ∧
      ∀ pl, last = some pl → Deovr.amendedRelB pl p = true) := by
  obtain ⟨hb, hnd, hmh, hlo⟩ := hinv
  cases e with
  | dataChunk oid now =>
    refine ⟨?_, ?_, ?_⟩
    · intro _
      simp only [Deovr.stepDeovr]
      unfold Deovr.dataStep
      exact invD_updObj m last oid _
        (fun o => by by_cases hc : o.paused <;> simp [hc])
        (fun o => by by_cases hc : o.paused <;> simp [hc])
        (fun o => by by_cases hc : o.paused <;> simp [hc]) ⟨hb, hnd, hmh, hlo⟩
    · intro p hp
      simp [Deovr.stepDeovr] at hp
    · intro p hp
      simp [Deovr.stepDeovr] at hp
  | closeFire oid now =>
    refine ⟨?_, ?_, ?_⟩
    · intro _
      simp only [Deovr.stepDeovr]
      unfold Deovr.closeStep
      exact invD_updObj m last oid _
        (fun o => by by_cases hc : o.inFlight - 1 = 0 <;> simp [hc])
        (fun o => by by_cases hc : o.inFlight - 1 = 0 <;> simp [hc])
        (fun o => by by_cases hc : o.inFlight - 1 = 0 <;> simp [hc])
        ⟨hb, hnd, hmh, hlo⟩
    · intro p hp
      simp [Deovr.stepDeovr] at hp
    · intro p hp
      simp [Deovr.stepDeovr] at hp
  | idleFire oid now =>
    simp only [Deovr.stepDeovr]
    cases hfind : m.objs.find? (fun o => o.oid = oid) with
    | none =>
      refine ⟨?_, ?_, ?_⟩
      · intro _
        simp only [Deovr.idleStep, hfind]
        exact ⟨hb, hnd, hmh, hlo⟩
      · intro p hp
        simp [Deovr.idleStep, hfind] at hp
      · intro p hp
        simp [Deovr.idleStep, hfind] at hp
    | some o =>
      by_cases hpau : o.paused
      · refine ⟨?_, ?_, ?_⟩
        · intro _
          simp only [Deovr.idleStep, hfind, hpau, if_true]
          exact ⟨hb, hnd, hmh, hlo⟩
        · intro p hp
          simp [Deovr.idleStep, hfind, hpau] at hp
        · intro p hp
          simp [Deovr.idleStep, hfind, hpau] at hp
      · by_cases hif : o.inFlight = 0
        · refine ⟨?_, ?_, ?_⟩
          · intro _
            simp only [Deovr.idleStep, hfind, hpau, hif, if_false, if_true]
            exact ⟨hb, hnd, hmh, hlo⟩
          · intro p hp
            simp [Deovr.idleStep, hfind, hpau, hif] at hp
          · intro p hp
            simp [Deovr.idleStep, hfind, hpau, hif] at hp
        · by_cases hld : o.lastDataAtMs = 0
          · refine ⟨?_, ?_, ?_⟩
            · intro _
              simp only [Deovr.idleStep, hfind, hpau, hif, hld, if_false,
                if_true]
              exact ⟨hb, hnd, hmh, hlo⟩
            · intro p hp
              simp [Deovr.idleStep, hfind, hpau, hif, hld] at hp
            · intro p hp
              simp [Deovr.idleStep, hfind, hpau, hif, hld] at hp
          · by_cases hidle : now - o.lastDataAtMs < Deovr.DEOVR_IDLE_PAUSE_MS
            · refine ⟨?_, ?_, ?_⟩
              · intro _
                simp only [Deovr.idleStep, hfind, hpau, hif, hld, hidle,
                  if_false, if_true]
                exact ⟨hb, hnd, hmh, hlo⟩
              · intro p hp
                simp [Deovr.idleStep, hfind, hpau, hif, hld, hidle] at hp
              · intro p hp
                simp [Deovr.idleStep, hfind, hpau, hif, hld, hidle] at hp
            · refine ⟨?_, ?_, ?_⟩
              · intro hp
                simp [Deovr.idleStep, hfind, hpau, hif, hld, hidle] at hp
              · intro p hp _
                simp only [Deovr.idleStep, hfind, hpau, hif, hld, hidle,
                  if_false] at hp ⊢
                exact invD_updObj m last oid _ (fun o => rfl) (fun o => rfl)
                  (fun o => rfl) ⟨hb, hnd, hmh, hlo⟩
              · intro p hp hpf
                simp [Deovr.idleStep, hfind, hpau, hif, hld, hidle] at hp
                subst hp
                simp at hpf
  | tickFire oid now =>
    simp only [Deovr.stepDeovr]
    cases hfind : m.objs.find? (fun o => o.oid = oid) with
    | none =>
      refine ⟨?_, ?_, ?_⟩
      · intro _
        simp only [Deovr.tickStep, hfind]
        exact ⟨hb, hnd, hmh, hlo⟩
      · intro p hp
        simp [Deovr.tickStep, hfind] at hp
      · intro p hp
        simp [Deovr.tickStep, hfind] at hp
    | some o =>
      have homem : o ∈ m.objs := List.mem_of_find?_eq_some hfind
      have hooid : o.oid = oid := by
        have := List.find?_some hfind
        simpa using this
      by_cases hpau : o.paused
      · refine ⟨?_, ?_, ?_⟩
        · intro _
          simp only [Deovr.tickStep, hfind, hpau, if_true]
          exact ⟨hb, hnd, hmh, hlo⟩
        · intro p hp
          simp [Deovr.tickStep, hfind, hpau] at hp
        · intro p hp
          simp [Deovr.tickStep, hfind, hpau] at hp
      · by_cases hif : o.inFlight = 0
        · refine ⟨?_, ?_, ?_⟩
          · intro _
            simp only [Deovr.tickStep, hfind, hpau, hif, if_false, if_true]
            exact ⟨hb, hnd, hmh, hlo⟩
          · intro p hp
            simp [Deovr.tickStep, hfind, hpau, hif] at hp
          · intro p hp
            simp [Deovr.tickStep, hfind, hpau, hif] at hp
        · by_cases hgap : now - o.lastPublishAtMs < Deovr.DEOVR_PUBLISH_MIN_MS
          · refine ⟨?_, ?_, ?_⟩
            · intro _
              simp only [Deovr.tickStep, hfind, hpau, hif, hgap, if_false,
                if_true]
              exact invD_updObj m last oid _ (fun o => rfl) (fun o => rfl)
                (fun o => rfl) ⟨hb, hnd, hmh, hlo⟩
            · intro p hp
              simp [Deovr.tickStep, hfind, hpau, hif, hgap] at hp
            · intro p hp
              simp [Deovr.tickStep, hfind, hpau, hif, hgap] at hp
          · refine ⟨?_, ?_, ?_⟩
            · intro hp
              simp [Deovr.tickStep, hfind, hpau, hif, hgap] at hp
            · intro p hp hpt
              simp [Deovr.tickStep, hfind, hpau, hif, hgap] at hp
              subst hp
              simp at hpt
            · intro p hp hpf
              simp only [Deovr.tickStep, hfind, hpau, hif, hgap, if_false,
                Bool.false_eq_true, ite_false, Option.some.injEq] at hp ⊢
              subst hp
              constructor
              · refine ⟨?_, ?_, ?_, ?_⟩
                · intro o' ho'
                  simp only [Deovr.updObj, List.mem_map] at ho'
                  obtain ⟨o₀, ho₀, rfl⟩ := ho'
                  by_cases hc : o₀.oid = oid
                  · simpa [hc] using hb o₀ ho₀
                  · simpa [hc] using hb o₀ ho₀
                · exact oidsNodup_updObj m oid _ (fun o => rfl) hnd
                · unfold Deovr.mapHead at hmh ⊢
                  cases hobjs : m.objs with
                  | nil =>
                    rw [hobjs] at hmh
                    simp [Deovr.updObj, hobjs, hmh]
                  | cons cur rest =>
                    rw [hobjs] at hmh
                    simp only [Deovr.updObj, hobjs, List.map_cons]
                    by_cases hc : cur.oid = oid
                    · simp [hc, hmh]
                    · simp [hc, hmh]
                · refine ⟨?_, ?_⟩
                  · simpa using (hooid ▸ hb o homem)
                  · intro o' ho' hoo
                    simp only [Deovr.updObj, List.mem_map] at ho'
                    obtain ⟨o₀, ho₀, rfl⟩ := ho'
                    by_cases hc : o₀.oid = oid
                    · simp [hc]
                    · rw [if_neg hc] at hoo
                      simp only at hoo
                      exact absurd hoo hc
              · intro pl hpl
                subst hpl
                obtain ⟨hplo, hall⟩ := hlo
                by_cases hpo : pl.oid = oid
                · have hlp : o.lastPublishAtMs = pl.atMs :=
                    hall o homem (hooid.trans hpo.symm)
                  have hge : Deovr.DEOVR_PUBLISH_MIN_MS ≤ now - pl.atMs := by
                    rw [← hlp]
                    unfold Deovr.DEOVR_PUBLISH_MIN_MS at hgap ⊢
                    omega
                  simp [Deovr.amendedRelB, hge]
                · simp [Deovr.amendedRelB, hpo]
  | pauseFire oid now =>
    simp only [Deovr.stepDeovr]
    cases hfind : m.objs.find? (fun o => o.oid = oid) with
    | none =>
      refine ⟨?_, ?_, ?_⟩
      · intro _
        simp only [Deovr.pauseStep, hfind]
        exact ⟨hb, hnd, hmh, hlo⟩
      · intro p hp
        simp [Deovr.pauseStep, hfind] at hp
      · intro p hp
        simp [Deovr.pauseStep, hfind] at hp
    | some o =>
      by_cases harm : o.pauseTimerArmed
      · have hinv' :
            Deovr.InvD
              { m with
                objs := Deovr.updObj m.objs oid fun ob =>
                  { ob with pauseTimerArmed := false } }
              last :=
          invD_updObj m last oid _ (fun o => rfl) (fun o => rfl) (fun o => rfl)
            ⟨hb, hnd, hmh, hlo⟩
        by_cases hif : o.inFlight ≠ 0
        · refine ⟨?_, ?_, ?_⟩
          · intro _
            simp [Deovr.pauseStep, hfind, harm, hif]
            exact hinv'
          · intro p hp
            simp [Deovr.pauseStep, hfind, harm, hif] at hp
          · intro p hp
            simp [Deovr.pauseStep, hfind, harm, hif] at hp
        · by_cases hpau : o.paused
          · refine ⟨?_, ?_, ?_⟩
            · intro _
              simp [Deovr.pauseStep, hfind, harm, hif, hpau]
              exact hinv'
            · intro p hp
              simp [Deovr.pauseStep, hfind, harm, hif, hpau] at hp
            · intro p hp
              simp [Deovr.pauseStep, hfind, harm, hif, hpau] at hp
          · refine ⟨?_, ?_, ?_⟩
            · intro hp
              simp [Deovr.pauseStep, hfind, harm, hif, hpau] at hp
            · intro p hp _
              simp [Deovr.pauseStep, hfind, harm, hif, hpau] at hp ⊢
              exact invD_updObj
                { m with objs := Deovr.updObj m.objs oid fun ob =>
                    { ob with pauseTimerArmed := false } }
                last oid _ (fun o => rfl) (fun o => rfl) (fun o => rfl) hinv'
            · intro p hp hpf
              simp [Deovr.pauseStep, hfind, harm, hif, hpau] at hp
              subst hp
              simp at hpf
      · refine ⟨?_, ?_, ?_⟩
        · intro _
          simp only [Deovr.pauseStep, hfind, harm, not_false_eq_true, if_true]
          exact ⟨hb, hnd, hmh, hlo⟩
        · intro p hp
          simp [Deovr.pauseStep, hfind, harm] at hp
        · intro p hp
          simp [Deovr.pauseStep, hfind, harm] at hp
  | streamReq now id =>
    simp only [Deovr.stepDeovr]
    cases hobjs : m.objs with
    | nil =>
      have hmapn : m.mapMedia = none := by
        unfold Deovr.mapHead at hmh
        simp only [hobjs] at hmh
        exact hmh
      refine ⟨?_, ?_, ?_⟩
      · intro hp
        simp [Deovr.streamReqStep, hobjs, hmapn] at hp
      · intro p hp hpt
        simp [Deovr.streamReqStep, hobjs, hmapn] at hp
        subst hp
        simp at hpt
      · intro p hp hpf
        simp [Deovr.streamReqStep, hobjs, hmapn] at hp ⊢
        subst hp
        refine ⟨⟨?_, ?_, ?_, ?_, ?_⟩, ?_⟩
        · intro o ho
          simp at ho
          subst ho
          show m.nextOid < m.nextOid + 1
          omega
        · unfold Deovr.oidsNodup
          simp
        · unfold Deovr.mapHead
          simp
        · show m.nextOid < m.nextOid + 1
          omega
        · intro o ho hoo
          simp at ho
          subst ho
          rfl
        · intro pl hpl
          subst hpl
          obtain ⟨hplo, hall⟩ := hlo
          have hne : pl.oid ≠ m.nextOid := Nat.ne_of_lt hplo
          simp [Deovr.amendedRelB, hne]
    | cons cur rest =>
      have hmap : m.mapMedia = some cur.mediaId := by
        unfold Deovr.mapHead at hmh
        simp only [hobjs] at hmh
        exact hmh
      have hmemcur : cur ∈ m.objs := by
        rw [hobjs]
        exact List.mem_cons_self cur rest
      by_cases hsw : cur.mediaId = id
      · by_cases hcp : cur.paused
        all_goals
          by_cases hgap :
            Deovr.DEOVR_PUBLISH_MIN_MS ≤ now - cur.lastPublishAtMs
          · refine ⟨?_, ?_, ?_⟩
            · intro hp
              simp [Deovr.streamReqStep, hobjs, hsw, hmap, hcp, hgap] at hp
            · intro p hp hpt
              simp [Deovr.streamReqStep, hobjs, hsw, hmap, hcp, hgap] at hp
              subst hp
              simp at hpt
            · intro p hp hpf
              simp [Deovr.streamReqStep, hobjs, hsw, hmap, hcp, hgap] at hp ⊢
              subst hp
              refine ⟨⟨?_, ?_, ?_, ?_, ?_⟩, ?_⟩
              · intro o ho
                simp at ho
                rcases ho with ho | ho
                · subst ho
                  show cur.oid < m.nextOid
                  exact hb cur hmemcur
                · exact hb o (by
                    rw [hobjs]
                    exact List.mem_cons_of_mem cur ho)
              · unfold Deovr.oidsNodup at hnd ⊢
                rw [hobjs] at hnd
                simpa using hnd
              · unfold Deovr.mapHead
                simp
              · show cur.oid < m.nextOid
                exact hb cur hmemcur
              · intro o ho hoo
                simp at ho
                rcases ho with ho | ho
                · subst ho
                  rfl
                · exfalso
                  have hndc := hnd
                  unfold Deovr.oidsNodup at hndc
                  rw [hobjs] at hndc
                  simp only [List.map_cons, List.nodup_cons] at hndc
                  refine hndc.1 (List.mem_map.2 ⟨o, ho, ?_⟩)
                  simpa using hoo
              · intro pl hpl
                subst hpl
                obtain ⟨hplo, hall⟩ := hlo
                by_cases hpo : pl.oid = cur.oid
                · have hlp : cur.lastPublishAtMs = pl.atMs :=
                    hall cur hmemcur hpo.symm
                  have hge : Deovr.DEOVR_PUBLISH_MIN_MS ≤ now - pl.atMs := by
                    rw [← hlp]
                    exact hgap
                  simp [Deovr.amendedRelB, hge]
                · have hne : pl.oid ≠ cur.oid := hpo
                  simp [Deovr.amendedRelB, hne]
          · refine ⟨?_, ?_, ?_⟩
            · intro _
              simp [Deovr.streamReqStep, hobjs, hsw, hmap, hcp, hgap]
              refine ⟨?_, ?_, ?_, ?_⟩
              · intro o ho
                simp at ho
                rcases ho with ho | ho
                · subst ho
                  show cur.oid < m.nextOid
                  exact hb cur hmemcur
                · exact hb o (by
                    rw [hobjs]
                    exact List.mem_cons_of_mem cur ho)
              · unfold Deovr.oidsNodup at hnd ⊢
                rw [hobjs] at hnd
                simpa using hnd
              · unfold Deovr.mapHead
                simp [hsw]
              · cases last with
                | none => trivial
                | some pl =>
                  obtain ⟨hplo, hall⟩ := hlo
                  refine ⟨hplo, ?_⟩
                  intro o ho hoo
                  simp at ho
                  rcases ho with ho | ho
                  · subst ho
                    show cur.lastPublishAtMs = pl.atMs
                    refine hall cur hmemcur ?_
                    simpa using hoo
                  · exact hall o (by
                      rw [hobjs]
                      exact List.mem_cons_of_mem cur ho) hoo
            · intro p hp
              simp [Deovr.streamReqStep, hobjs, hsw, hmap, hcp, hgap] at hp
            · intro p hp
              simp [Deovr.streamReqStep, hobjs, hsw, hmap, hcp, hgap] at hp
      · refine ⟨?_, ?_, ?_⟩
        · intro hp
          simp [Deovr.streamReqStep, hobjs, hsw, hmap] at hp
        · intro p hp hpt
          simp [Deovr.streamReqStep, hobjs, hsw, hmap] at hp
          subst hp
          simp at hpt
        · intro p hp hpf
          simp [Deovr.streamReqStep, hobjs, hsw, hmap] at hp ⊢
          subst hp
          have hfr : ∀ x ∈ m.objs, x.oid ≠ m.nextOid :=
            fun x hx => Nat.ne_of_lt (hb x hx)
          refine ⟨⟨?_, ?_, ?_, ?_, ?_⟩, ?_⟩
          · intro o ho
            simp at ho
            rcases ho with ho | ho | ho
            · subst ho
              show m.nextOid < m.nextOid + 1
              omega
            · rw [ho]
              have hc := hb cur hmemcur
              show cur.oid < m.nextOid + 1
              omega
            · have hc := hb o (by
                rw [hobjs]
                exact List.mem_cons_of_mem cur ho)
              show o.oid < m.nextOid + 1
              omega
          · unfold Deovr.oidsNodup at hnd ⊢
            rw [hobjs] at hnd
            simp only [List.map_cons, List.nodup_cons] at hnd ⊢
            refine ⟨?_, hnd.1, hnd.2⟩
            intro hmem
            rcases List.mem_cons.1 hmem with h | h
            · exact hfr cur hmemcur h.symm
            · obtain ⟨o, ho, hoe⟩ := List.mem_map.1 h
              exact hfr o (by
                rw [hobjs]
                exact List.mem_cons_of_mem cur ho) hoe
          · unfold Deovr.mapHead
            simp
          · show m.nextOid < m.nextOid + 1
            omega
          · intro o ho hoo
            simp at ho
            rcases ho with ho | ho | ho
            · subst ho
              rfl
            · exfalso
              refine hfr cur hmemcur ?_
              simpa [ho] using hoo
            · exfalso
              refine hfr o (by
                rw [hobjs]
                exact List.mem_cons_of_mem cur ho) ?_
              simpa using hoo
          · intro pl hpl
            subst hpl
            obtain ⟨hplo, hall⟩ := hlo
            have hne : pl.oid ≠ m.nextOid := Nat.ne_of_lt hplo
            simp [Deovr.amendedRelB, hne]

theorem runDeovr_chainFrom (events : List Deovr.DeovrEvent) :
    ∀ (m : Deovr.DeovrModel) (last : Option Deovr.Publish),
      Deovr.InvD m last →
      Deovr.chainFrom Deovr.amendedRelB last
        (Deovr.playingPubs (Deovr.runDeovr m events).2) = true := by
  induction events with
  | nil =>
    intro m last _
    cases last with
    | none => rfl
    | some pl => rfl
  | cons e es ih =>
    intro m last hinv
    obtain ⟨h1, h2, h3⟩ := stepDeovr_inv m e last hinv
    simp only [Deovr.runDeovr]
    cases hr : (Deovr.stepDeovr m e).2 with
    | none =>
      exact ih _ last (h1 hr)
    | some pub =>
      cases hpb : pub.paused with
      | true =>
        have hih := ih (Deovr.stepDeovr m e).1 last (h2 pub hr hpb)
        cases last with
        | none =>
          simpa [Deovr.chainFrom, Deovr.playingPubs, hpb] using hih
        | some pl =>
          simpa [Deovr.chainFrom, Deovr.playingPubs, hpb] using hih
      | false =>
        obtain ⟨hinv', hrel⟩ := h3 pub hr hpb
        have hih := ih (Deovr.stepDeovr m e).1 (some pub) hinv'
        cases last with
        | none =>
          simpa [Deovr.chainFrom, Deovr.playingPubs, hpb] using hih
        | some pl =>
          have hr2 := hrel pl rfl
          simp only [Deovr.chainFrom, Deovr.playingPubs, List.filter_cons,
            hpb] at hih ⊢
          simp only [Deovr.chainOkB, Bool.and_eq_true]
          refine ⟨hr2, ?_⟩
          simpa using hih

/-- C7 (amended): in the DeoVR heartbeat model of one (sessionId,
deovrClientId) key, over every event trace, two consecutive playing publishes
are at least DEOVR_PUBLISH_MIN_MS = 750 ms apart unless the mediaId changed
between them or the two publishes come from different heartbeat state
objects — a media switch never clears the superseded object's tick and idle
timers, so that object keeps publishing under the same key until the forget
sweep. -/
theorem deovr_rate_limit_amended (events : List Deovr.DeovrEvent) :
    Deovr.chainOkB Deovr.amendedRelB
      (Deovr.playingPubs (Deovr.runDeovr Deovr.initDeovr events).2) = true := by
  have hinv0 : Deovr.InvD Deovr.initDeovr none :=
    ⟨fun o ho => absurd ho (List.not_mem_nil o), List.nodup_nil, rfl, trivial⟩
  have h := runDeovr_chainFrom events Deovr.initDeovr none hinv0
  simpa [Deovr.chainFrom] using h
